import Mathlib

attribute [local semireducible] Rat.mul Rat.add Rat.sub Rat.inv

/-!
Verification of the NOWA V3 planning engine (plans/engineV3) against its
natural-language specification.  Python dictionaries are modelled as Lean
structures with Option-valued fields for keys that may be absent; local
datetimes are modelled as a count of seconds since a reference Monday
00:00:00 in the local timezone (the engine only ever compares datetimes,
adds minute/day offsets, and reads hour and weekday, all of which this
representation supports exactly); floats are modelled as exact rationals.
-/

namespace NowaV3

/-- Local datetime: seconds since a reference local Monday 00:00:00. -/
abbrev DT := Nat

/-! ## time_rules.py -/

structure WeatherDict where
  temp : Option ℚ
  feels_like : Option ℚ
  condition : Option String
  is_raining : Option Bool
  is_snowing : Option Bool
  windy : Option Bool
  precip_prob : Option ℚ
  confidence : Option String
  source : Option String
deriving DecidableEq, Repr, Inhabited

structure WeatherProfile where
  cold : Bool
  very_cold : Bool
  rain : Bool
  snow : Bool
  windy : Bool
  pleasant : Bool
  confidence : String
deriving DecidableEq, Repr, Inhabited

/-- Substring test, modelling the Python `needle in s` operator on strings. -/
def substrOf (needle s : String) : Bool :=
  decide (List.IsInfix needle.data s.data)

/-- Python str.lower(), on the character list of the string (the strings
the engine lowercases are ASCII weather conditions). -/
def pyLower (s : String) : String :=
  ⟨s.data.map Char.toLower⟩

/-- Python str.strip(): drop whitespace from both ends. -/
def pyStrip (s : String) : String :=
  ⟨((s.data.dropWhile Char.isWhitespace).reverse.dropWhile Char.isWhitespace).reverse⟩

/-- Python s[:n] on a string. -/
def pyTake (s : String) (n : Nat) : String :=
  ⟨s.data.take n⟩

/-- Numeric value of a digit string, 0 when any character is not a digit
(int() raises there in Python; the engine only passes digit strings). -/
def digitsVal (cs : List Char) : Nat :=
  if cs.all Char.isDigit then cs.foldl (fun acc c => acc * 10 + (c.toNat - 48)) 0
  else 0

/-- time_rules.build_weather_profile.  The Python reads
weather.get("feels_like", temp), i.e. the feels_like key when present and
otherwise the temp key; Option.orElse models the dict lookup chain. -/
def build_weather_profile (w : WeatherDict) : WeatherProfile :=
  let temp := w.temp
  let feels := match w.feels_like with
    | some f => some f
    | none => temp
  let cond := pyLower (w.condition.getD "")
  let rain := w.is_raining.getD false || substrOf "rain" cond || substrOf "drizzle" cond
  let snow := w.is_snowing.getD false || substrOf "snow" cond
  let windy := w.windy.getD false || substrOf "wind" cond
  match feels with
  | none =>
    { cold := false, very_cold := false, rain := rain, snow := snow, windy := windy
      pleasant := true, confidence := w.confidence.getD "low" }
  | some f =>
    { cold := decide (f ≤ 8), very_cold := decide (f ≤ 2), rain := rain, snow := snow
      windy := windy
      pleasant := decide (10 ≤ f ∧ f ≤ 22) && !rain && !snow && !windy
      confidence := w.confidence.getD "high" }

/-- time_rules.get_daypart (reads only the hour of the local datetime). -/
def get_daypart (dt : DT) : String :=
  let h := dt % 86400 / 3600
  if 6 ≤ h ∧ h < 11 then "morning"
  else if 11 ≤ h ∧ h < 15 then "midday"
  else if 15 ≤ h ∧ h < 18 then "afternoon"
  else if 18 ≤ h ∧ h < 22 then "evening"
  else "late"

/-- time_rules.CATEGORY_DAYPART_ALLOWED (dict lookup; None when absent). -/
def CATEGORY_DAYPART_ALLOWED (category : String) : Option (List String) :=
  match category with
  | "bar" => some ["evening", "late"]
  | "cocktail_bar" => some ["evening", "late"]
  | "wine_bar" => some ["evening", "late"]
  | "hotel_bar" => some ["evening", "late"]
  | "nightclub" => some ["late"]
  | "museum" => some ["morning", "midday", "afternoon"]
  | "shopping_area" => some ["morning", "midday", "afternoon", "evening"]
  | "market" => some ["morning", "midday", "afternoon"]
  | "boutique" => some ["morning", "midday", "afternoon", "evening"]
  | "concept_store" => some ["morning", "midday", "afternoon", "evening"]
  | "vintage" => some ["morning", "midday", "afternoon", "evening"]
  | "cafe" => some ["morning", "midday", "afternoon", "evening"]
  | "bakery" => some ["morning", "midday", "afternoon"]
  | "dessert" => some ["afternoon", "evening", "late"]
  | "late_food" => some ["late"]
  | "fast_food" => some ["midday", "afternoon", "evening", "late"]
  | "cinema" => some ["evening", "late", "afternoon"]
  | "theater" => some ["evening", "late"]
  | "jazz_bar" => some ["evening", "late"]
  | "cultural_bar" => some ["evening", "late"]
  | "photo_spot" => some ["morning", "midday", "afternoon", "evening"]
  | "viewpoint" => some ["morning", "midday", "afternoon", "evening"]
  | "street_art" => some ["morning", "midday", "afternoon", "evening"]
  | _ => none

/-- time_rules.is_category_suitable. -/
def is_category_suitable (category daypart : String) : Bool :=
  match CATEGORY_DAYPART_ALLOWED category with
  | none => true
  | some allowed => allowed.contains daypart

structure OpenStatus where
  is_open : Option Bool
  confidence : String
  reason : String
deriving DecidableEq, Repr, Inhabited

/-- One endpoint of a Google opening-hours period (the day and time keys). -/
structure PeriodPoint where
  day : Int
  time : String
deriving DecidableEq, Repr, Inhabited

/-- A Google opening-hours period; either endpoint dict may be missing. -/
structure Period where
  open_ : Option PeriodPoint
  close : Option PeriodPoint
deriving DecidableEq, Repr, Inhabited

structure OpeningHours where
  periods : Option (List Period)
deriving DecidableEq, Repr, Inhabited

/-! ## Place dictionaries -/

/-- A normalized place dictionary as consumed by the engine and the scorer.
Fields that a raw dict may lack are Option-valued; getD models dict.get. -/
structure Place where
  place_id : Option String
  name : Option String
  lat : ℚ
  lng : ℚ
  rating : Option ℚ
  user_ratings_total : Option ℚ
  types : List String
  opening_hours : Option OpeningHours
  business_status : Option String
  category : Option String
  is_indoor : Option Bool
  noise_level : Option Int
  tourist_density : Option Int
  local_favorite : Option Bool
deriving DecidableEq, Repr, Inhabited

/-- time_rules._weekday_google: Python weekday (Monday=0) shifted so that
0=Sunday as in Google periods.  The reference epoch is a Monday. -/
def _weekday_google (dt : DT) : Nat :=
  (dt / 86400 % 7 + 1) % 7

/-- time_rules._parse_hhmm: "1730" becomes 17:30, anything of other length
becomes 00:00.  Python int() raises on non-digits; the engine only ever
passes four-digit strings, modelled here by toNat?.getD 0. -/
def _parse_hhmm (hhmm : String) : Nat × Nat :=
  let cs := hhmm.data
  if cs.length ≠ 4 then (0, 0)
  else (digitsVal (cs.take 2), digitsVal (cs.drop 2))

/-- time_rules._dt_at_local_date: keep the date of dt, replace the time of
day (seconds and microseconds zeroed). -/
def _dt_at_local_date (dt : DT) (t : Nat × Nat) : DT :=
  dt / 86400 * 86400 + t.1 * 3600 + t.2 * 60

/-- The open interval a single period contributes in compute_open_status:
both endpoints are mapped into the week of start_dt (day deltas taken mod
7), and a close not after its open gets one day added (overnight). -/
def periodInterval (start_dt : DT) (p : Period) : Option (DT × DT) :=
  match p.open_, p.close with
  | some o, some c =>
    let wd : Int := _weekday_google start_dt
    let o_time := _parse_hhmm o.time
    let c_time := _parse_hhmm c.time
    let delta_open_days : Nat := ((o.day - wd) % 7).toNat
    let delta_close_days : Nat := ((c.day - wd) % 7).toNat
    let open_dt := _dt_at_local_date (start_dt + 86400 * delta_open_days) o_time
    let close_dt := _dt_at_local_date (start_dt + 86400 * delta_close_days) c_time
    let close_dt := if close_dt ≤ open_dt then close_dt + 86400 else close_dt
    some (open_dt, close_dt)
  | _, _ => none

/-- time_rules.compute_open_status.  A falsy or absent periods list yields
hours_missing; periods whose open or close dict is missing are skipped; if
no period is usable the result is hours_unusable; otherwise the window
start..start+duration is compared against every period interval. -/
def compute_open_status (place : Place) (start_dt : DT) (duration_min : Nat) : OpenStatus :=
  match place.opening_hours with
  | none => ⟨none, "low", "hours_missing"⟩
  | some oh =>
    match oh.periods with
    | none => ⟨none, "low", "hours_missing"⟩
    | some [] => ⟨none, "low", "hours_missing"⟩
    | some periods =>
      let end_dt := start_dt + 60 * duration_min
      let intervals := periods.filterMap (periodInterval start_dt)
      if intervals.isEmpty then ⟨none, "low", "hours_unusable"⟩
      else if intervals.any fun iv => decide (iv.1 ≤ start_dt ∧ end_dt ≤ iv.2) then
        ⟨some true, "high", "open_for_slot"⟩
      else if intervals.any fun iv =>
          decide (iv.1 ≤ start_dt ∧ start_dt < iv.2 ∧ end_dt > iv.2) then
        ⟨some true, "medium", "open_but_closing_during_slot"⟩
      else ⟨some false, "high", "closed_for_slot"⟩

/-! ## scoring.py -/

/-- scoring.score_place_for_slot, a deterministic pure function.  Python
truthiness is modelled exactly: "or" defaults fire on falsy values, so a
noise_level of 0 is replaced by 1 and an empty category string stays
empty; dict.get defaults are Option.getD. -/
def score_place_for_slot (place : Place) (slot_categories : List String)
    (daypart : String) (discovery_mode : String) (constraints : List String)
    (open_status : OpenStatus) (distance_m : Option ℚ) : ℚ :=
  let category := pyStrip (place.category.getD "")
  let rating : ℚ := place.rating.getD 0
  let reviews : ℚ := place.user_ratings_total.getD 0
  if open_status.is_open = some false then -10000
  else
    let score : ℚ := 0
    let score := if open_status.is_open = some true then
        (if open_status.confidence = "medium" then score + 15 - 5 else score + 15)
      else score - 3
    let score := if slot_categories.contains category then score + 30 else score + 5
    let score := if category ≠ "" ∧ ¬ is_category_suitable category daypart then
        score - 25 else score
    let score := score + min rating 5 * 6
    let score := score + min (reviews / 500) 6 * (12 / 10)
    let score := if discovery_mode = "local" then
        (let s := if place.tourist_density.getD 0 ≥ 2 then score - 10 else score
         if place.local_favorite.getD false then s + 8 else s)
      else score + 2
    let score := if constraints.contains "indoor_only" ∧ place.is_indoor.getD true = false then
        score - 50 else score
    let score := if constraints.contains "quiet" then
        (let noise : Int := match place.noise_level with
           | some n => if n = 0 then 1 else n
           | none => 1
         score - (max 0 (noise - 2) * 4 : Int))
      else score
    let score := if constraints.contains "no_walk" then
        (match distance_m with
         | some d => score - min (d / 200) 15
         | none => score)
      else score
    let score := match distance_m with
      | some d => score - min (d / 300) 10
      | none => score
    score

/-! ## presets.py -/

structure SlotSpec where
  slot_id : String
  title : String
  duration_min : Nat
  categories : List String
  constraints : List String
  role : String
deriving DecidableEq, Repr, Inhabited

/-- presets.INTENT_TEMPLATES (dict lookup; None when the key is absent). -/
def INTENT_TEMPLATES (key : String) : Option (List SlotSpec) :=
  match key with
  | "highlights_tour" => some [
      ⟨"landmark_1", "🏛️ Landmark icónico", 60,
        ["landmark", "monument", "tourist_attraction"], [], "reward"⟩,
      ⟨"photo_stop_1", "📸 Foto panorámica", 20,
        ["viewpoint", "observation_deck", "photo_spot"], [], "nice"⟩,
      ⟨"museum", "🎨 Museo principal", 90,
        ["museum", "art_gallery"], ["indoor"], "reward"⟩,
      ⟨"coffee_break", "☕ Café local", 30,
        ["cafe", "bakery"], ["warm"], "anchor"⟩,
      ⟨"landmark_2", "🏰 Segunda atracción", 50,
        ["landmark", "historic_site", "castle"], [], "reward"⟩,
      ⟨"viewpoint", "🌅 Mirador final", 25,
        ["viewpoint", "scenic_spot"], [], "optional"⟩]
  | "chill_evening" => some [
      ⟨"drinks", "🍸 Bar acogedor (indoor)", 75,
        ["bar", "cocktail_bar", "wine_bar", "hotel_bar"], ["indoor", "quiet"], "anchor"⟩,
      ⟨"late_food", "🌭 Snack caliente", 40,
        ["late_food", "fast_food"], ["quick"], "reward"⟩]
  | "shop_local" => some [
      ⟨"shopping_cluster", "🛍️ Zona de shopping local", 90,
        ["shopping_area", "market", "boutique", "concept_store", "vintage"], [], "anchor"⟩,
      ⟨"coffee_break", "☕ Coffee break cercano", 25,
        ["cafe", "bakery"], ["warm"], "nice"⟩,
      ⟨"photo_stop", "📸 Spot fotogénico cercano", 25,
        ["photo_spot", "viewpoint", "street_art"], [], "optional"⟩]
  | "museum_day" => some [
      ⟨"museum", "🏛️ Museo imperdible", 110, ["museum"], ["indoor"], "reward"⟩,
      ⟨"coffee_break", "☕ Café cercano", 30, ["cafe", "bakery"], ["warm"], "anchor"⟩]
  | "culture_alt_late" => some [
      ⟨"culture_alt", "🎭 Cultura nocturna (indoor, abierto tarde)", 75,
        ["cultural_bar", "jazz_bar", "cinema", "theater"], ["indoor", "quiet"], "reward"⟩,
      ⟨"late_coffee", "🍰 Postre / té caliente", 35,
        ["dessert", "cafe"], ["warm"], "anchor"⟩]
  | "food_tour" => some [
      ⟨"street_food", "🌮 Street food auténtico", 35,
        ["street_food", "food_truck", "market_stall"], [], "anchor"⟩,
      ⟨"local_restaurant", "🍽️ Restaurante local típico", 75,
        ["local_restaurant", "traditional_food", "ethnic_restaurant"], [], "reward"⟩,
      ⟨"dessert_spot", "🍰 Postre típico", 30,
        ["dessert", "bakery", "ice_cream", "patisserie"], [], "nice"⟩]
  | "coffee_hop" => some [
      ⟨"specialty_coffee_1", "☕ Café de especialidad", 40,
        ["specialty_coffee", "roastery", "third_wave_coffee"], ["indoor", "quiet"], "anchor"⟩,
      ⟨"pastry", "🥐 Pastelería artesanal", 30,
        ["bakery", "patisserie"], [], "nice"⟩,
      ⟨"specialty_coffee_2", "☕ Segunda parada café", 35,
        ["cafe", "specialty_coffee"], [], "optional"⟩]
  | "nightlife" => some [
      ⟨"pre_drinks", "🍸 Pre-drinks bar", 60,
        ["cocktail_bar", "wine_bar", "rooftop_bar"], ["indoor"], "anchor"⟩,
      ⟨"club", "💃 Club/discoteca", 120,
        ["nightclub", "dance_club"], [], "reward"⟩,
      ⟨"late_night_food", "🌭 Comida post-club", 30,
        ["late_food", "kebab", "pizza", "fast_food"], [], "nice"⟩]
  | "outdoor_active" => some [
      ⟨"scenic_walk", "🚶 Caminata escénica", 50,
        ["park", "trail", "waterfront"], ["outdoor"], "anchor"⟩,
      ⟨"viewpoint", "📸 Mirador panorámico", 25,
        ["viewpoint", "observation_deck"], ["outdoor"], "reward"⟩,
      ⟨"outdoor_cafe", "☕ Café con terraza", 35,
        ["cafe"], ["prefer_terrace"], "nice"⟩]
  | "romantic_date" => some [
      ⟨"romantic_dinner", "🌹 Cena romántica", 90,
        ["fine_dining", "upscale_restaurant", "romantic_restaurant"], ["quiet", "indoor"], "reward"⟩,
      ⟨"sunset_spot", "🌅 Spot para atardecer", 30,
        ["viewpoint", "waterfront", "rooftop", "scenic_spot"], ["outdoor"], "anchor"⟩,
      ⟨"cocktail_lounge", "🍸 Lounge íntimo", 60,
        ["cocktail_bar", "lounge", "speakeasy"], ["quiet", "indoor"], "nice"⟩]
  | _ => none

/-- presets.INTENT_TO_TEMPLATE (dict lookup). -/
def INTENT_TO_TEMPLATE (intent : String) : Option String :=
  match intent with
  | "chill" => some "chill_evening"
  | "drink" => some "chill_evening"
  | "drinks" => some "chill_evening"
  | "highlights" => some "highlights_tour"
  | "sightseeing" => some "highlights_tour"
  | "tourist" => some "highlights_tour"
  | "landmarks" => some "highlights_tour"
  | "shop_local" => some "shop_local"
  | "shopping" => some "shop_local"
  | "shop" => some "shop_local"
  | "museum" => some "museum_day"
  | "culture" => some "museum_day"
  | "art" => some "museum_day"
  | "food" => some "food_tour"
  | "food_tour" => some "food_tour"
  | "eat" => some "food_tour"
  | "foodie" => some "food_tour"
  | "coffee" => some "coffee_hop"
  | "coffee_hop" => some "coffee_hop"
  | "cafe" => some "coffee_hop"
  | "nightlife" => some "nightlife"
  | "party" => some "nightlife"
  | "dance" => some "nightlife"
  | "club" => some "nightlife"
  | "night" => some "nightlife"
  | "outdoor" => some "outdoor_active"
  | "walk" => some "outdoor_active"
  | "hike" => some "outdoor_active"
  | "nature" => some "outdoor_active"
  | "active" => some "outdoor_active"
  | "date" => some "romantic_date"
  | "romantic" => some "romantic_date"
  | "romance" => some "romantic_date"
  | _ => none

/-- Python int() applied to a rational: truncation toward zero (the
quotient of the numerator magnitude by the denominator, signed). -/
def pyInt (q : ℚ) : Int :=
  if 0 ≤ q.num then Int.ofNat (q.num.toNat / q.den)
  else -Int.ofNat ((-q.num).toNat / q.den)

/-- presets.adjust_template_for_duration: the energy_multipliers dict with
default 1.0. -/
def energy_multipliers (energy_level : String) : ℚ :=
  match energy_level with
  | "low" => 8 / 10
  | "medium" => 1
  | "high" => 12 / 10
  | _ => 1

/-- Position of a role in the priority_order list, 99 when absent
(priority_order.index with the not-in-list guard). -/
def rolePriorityIndex (role : String) : Nat :=
  if role = "reward" then 0
  else if role = "anchor" then 1
  else if role = "nice" then 2
  else if role = "optional" then 3
  else 99

/-- Python list.insert(-1, x): insert before the final element (append when
the list is empty). -/
def insertBeforeLast (l : List SlotSpec) (x : SlotSpec) : List SlotSpec :=
  match l with
  | [] => [x]
  | [a] => [x, a]
  | a :: rest => a :: insertBeforeLast rest x

/-- presets.adjust_template_for_duration.  sorted() with a key function is
a stable sort, modelled by insertion sort on the key order; int() on the
float products is truncation of the exact value (exact for every template
duration). -/
def adjust_template_for_duration (template_key : String) (duration_hours : ℚ)
    (energy_level : String) : List SlotSpec :=
  let base_slots := (INTENT_TEMPLATES template_key).getD
    ((INTENT_TEMPLATES "chill_evening").getD [])
  let total_slot_minutes : ℚ := ((base_slots.map (·.duration_min)).sum : Nat)
  let avg_slot_duration : ℚ :=
    if base_slots.length = 0 then 60 else total_slot_minutes / base_slots.length
  let multiplier := energy_multipliers energy_level
  let duration_minutes := duration_hours * 60
  let ideal_slot_count : Int := pyInt (duration_minutes / (avg_slot_duration * multiplier))
  let adjusted_slots :=
    if ideal_slot_count < (base_slots.length : Int) then
      let sorted_slots := base_slots.insertionSort
        (fun a b => rolePriorityIndex a.role ≤ rolePriorityIndex b.role)
      sorted_slots.take ideal_slot_count.toNat
    else if ideal_slot_count > (base_slots.length : Int) then
      (if template_key = "highlights_tour" then
        insertBeforeLast base_slots
          ⟨"landmark_" ++ toString ideal_slot_count, "🏛️ Atracción adicional", 50,
            ["landmark", "tourist_attraction", "historic_site"], [], "nice"⟩
      else base_slots)
    else base_slots
  if multiplier ≠ 1 then
    adjusted_slots.map fun s =>
      { s with duration_min := (pyInt (s.duration_min * multiplier)).toNat }
  else adjusted_slots

/-- presets.choose_template (intent and when_selection arrive stripped and
lowercased by the engine; the strip/lower normalization is left to the
caller as in the source defaults). -/
def choose_template (intent : String) (when_selection : String) (hour : Nat)
    (duration_hours : ℚ) (energy : String) : String × List SlotSpec :=
  let base_key := (INTENT_TO_TEMPLATE intent).getD "chill_evening"
  let base_key := if intent = "museum" ∧ (18 ≤ hour ∨ hour ≤ 6 ∨ when_selection = "tonight")
    then "culture_alt_late" else base_key
  let base_key := if when_selection = "tonight" ∧ intent ∈ ["party", "dance", "club"]
    then "nightlife" else base_key
  let base_key := if intent ∈ ["outdoor", "walk", "hike"] ∧ (21 ≤ hour ∨ hour ≤ 6)
    then "chill_evening" else base_key
  (base_key, adjust_template_for_duration base_key duration_hours energy)

/-! ## optimizer.py and the materialized Stop shape -/

/-- A materialized stop as produced by V3PlannerEngine._materialize_stops.
The photos projection (photo_reference) is omitted: no claim concerns it
and the Place model carries no photos list. -/
structure Stop where
  order_index : Nat
  slot_id : String
  slot_title : String
  slot_role : String
  why_now : String
  place_id : Option String
  name : String
  lat : ℚ
  lng : ℚ
  category : String
  start : DT
  duration_min : Nat
  open_status : Option Bool
  open_confidence : String
  open_reason : String
  opening_hours_json : Option OpeningHours
  place_types : List String
  business_status : Option String
  rating : Option ℚ
  popularity : Option ℚ
deriving DecidableEq, Repr, Inhabited

/-- optimizer._dist2: squared planar distance on the lat and lng fields. -/
def _dist2 (a b : Stop) : ℚ :=
  (a.lat - b.lat) * (a.lat - b.lat) + (a.lng - b.lng) * (a.lng - b.lng)

/-- One step of the greedy loop: remove from the list the first element at
minimal squared distance from last, returning it with the rest in their
original order.  This is remaining.pop(argmin) where the argmin (Python
min over indices) keeps the earliest index on ties. -/
def extractMin (last : Stop) : List Stop → Option (Stop × List Stop)
  | [] => none
  | x :: xs =>
    match extractMin last xs with
    | none => some (x, xs)
    | some (y, ys) =>
      if _dist2 last x ≤ _dist2 last y then some (x, xs) else some (y, x :: ys)

/-- The while-loop of order_stops_nearest_neighbor, with fuel equal to the
length of the remaining list (each iteration pops exactly one element). -/
def nnAux : Nat → Stop → List Stop → List Stop
  | 0, _, _ => []
  | fuel + 1, last, remaining =>
    match extractMin last remaining with
    | none => []
    | some (c, rest) => c :: nnAux fuel c rest

/-- optimizer.order_stops_nearest_neighbor: lists of length at most 2 are
returned unchanged; otherwise the first stop anchors a greedy
nearest-neighbor tour over the rest. -/
def order_stops_nearest_neighbor (stops : List Stop) : List Stop :=
  if stops.length ≤ 2 then stops
  else
    match stops with
    | [] => []
    | s0 :: rest => s0 :: nnAux rest.length s0 rest

/-! ## engine.py slots and ranking -/

/-- An instantiated slot dict as built by V3PlannerEngine._build_slots.
The end key is named end_ (end is reserved in Lean). -/
structure Slot where
  slot_id : String
  title : String
  start : DT
  end_ : DT
  duration_min : Nat
  categories : List String
  constraints : List String
  role : String
deriving DecidableEq, Repr, Inhabited

/-- list(dict.fromkeys(l)): deduplicate keeping the first occurrence. -/
def dedupKeepFirst (l : List String) : List String :=
  go [] l
where
  go (seen : List String) : List String → List String
    | [] => []
    | x :: xs => if seen.contains x then go seen xs else x :: go (x :: seen) xs

/-- The body of the for-loop of _build_slots for one SlotSpec at the
current cursor: none when the slot is skipped for hostile weather. -/
def buildOneSlot (wp : WeatherProfile) (climate_constraints : List String)
    (cursor : DT) (spec : SlotSpec) : Option Slot :=
  if (spec.slot_id ∈ ["photo_stop", "walk", "viewpoint_walk", "scenic_walk"]) ∧
      (wp.very_cold ∨ wp.rain ∨ wp.snow) then none
  else
    let duration := spec.duration_min
    let duration := if wp.very_cold ∧ spec.slot_id ∈ ["shopping_cluster", "explore_area"] then
        max 60 (duration * 3 / 4) else duration
    let duration := if wp.pleasant ∧ spec.slot_id ∈ ["photo_stop", "walk"] then
        duration * 6 / 5 else duration
    let slot_constraints := dedupKeepFirst (spec.constraints ++ climate_constraints)
    let categories := if wp.very_cold ∧ spec.slot_id = "drinks" then
        "hotel_bar" :: spec.categories.erase "hotel_bar"
      else spec.categories
    some { slot_id := spec.slot_id, title := spec.title, start := cursor
           end_ := cursor + 60 * duration, duration_min := duration
           categories := categories, constraints := slot_constraints, role := spec.role }

/-- V3PlannerEngine._build_slots: cursor starts 5 minutes after dt_local
and advances to the end of each emitted slot; skipped slots leave it
unchanged. -/
def build_slots (dt_local : DT) (slot_specs : List SlotSpec) (weather : WeatherDict) :
    List Slot :=
  let wp := build_weather_profile weather
  let climate_constraints : List String :=
    if wp.very_cold ∨ wp.rain ∨ wp.snow then ["indoor_only", "prefer_short_legs"] else []
  go wp climate_constraints (dt_local + 300) slot_specs
where
  go (wp : WeatherProfile) (cc : List String) (cursor : DT) : List SlotSpec → List Slot
    | [] => []
    | spec :: rest =>
      match buildOneSlot wp cc cursor spec with
      | none => go wp cc cursor rest
      | some slot => slot :: go wp cc slot.end_ rest

/-- A ranked option dict (the open key is named open_). -/
structure RankedOption where
  place : Place
  score : ℚ
  distance_m : ℚ
  open_ : Option Bool
  open_confidence : String
  open_reason : String
deriving DecidableEq, Repr, Inhabited

/-- A slot dict extended with its options (the Python spread of the slot
dict plus an options key is modelled as a nested record). -/
structure RankedSlot where
  slot : Slot
  options : List RankedOption
deriving DecidableEq, Repr, Inhabited

/-- A ranked slot further extended by the selector with selected_place_ids
and why_now. -/
structure FilledSlot where
  slot : Slot
  options : List RankedOption
  selected_place_ids : List (Option String)
  why_now : String
deriving DecidableEq, Repr, Inhabited

/-- The per-candidate body of _rank_slots: compute the open status at the
slot start, hard-filter candidates whose is_open is False, score the
rest. -/
def rankOneCandidate (slot : Slot) (cats : List String) (daypart : String)
    (discovery_mode : String) (slot_constraints : List String) (dist : Place → ℚ)
    (place : Place) : Option RankedOption :=
  let open_status := compute_open_status place slot.start slot.duration_min
  if open_status.is_open = some false then none
  else
    let dist_m := dist place
    let score := score_place_for_slot place cats daypart discovery_mode
      slot_constraints open_status (some dist_m)
    some ⟨place, score, dist_m, open_status.is_open, open_status.confidence,
      open_status.reason⟩

/-- V3PlannerEngine._rank_slots.  The providers call is abstracted as a
function from the slot categories to the candidate list (in the source it
is Providers.fetch_candidates with a per-key cache, radius 2500 and
opening-hours enrichment); the distance computation is abstracted as a
function of the place (Providers.distance_m).  list.sort(key=score,
reverse=True) is Python's stable descending sort, modelled by a stable
insertion sort on score-greater-or-equal. -/
def rank_slots (fetch : List String → List Place) (dist : Place → ℚ)
    (daypart : String) (discovery_mode : String) (constraints : List String)
    (slots : List Slot) : List RankedSlot :=
  slots.map fun slot =>
    let cats := slot.categories
    let slot_constraints := dedupKeepFirst (constraints ++ slot.constraints)
    let candidates := fetch cats
    let options := candidates.filterMap
      (rankOneCandidate slot cats daypart discovery_mode slot_constraints dist)
    let options := options.insertionSort (fun a b => b.score ≤ a.score)
    ⟨slot, options.take 10⟩

/-! ## llm.py selector -/

/-- The context dict passed to SlotLLM.fill. -/
structure FillContext where
  hour : Nat
  daypart : String
  weather : WeatherDict
deriving Repr, Inhabited

def WHY_MAX : Nat := 50

/-- SlotLLM._simple_why_now. -/
def _simple_why_now (context : FillContext) : String :=
  let cond := pyLower (context.weather.condition.getD "")
  let feels := match context.weather.feels_like with
    | some f => some f
    | none => context.weather.temp
  let base := "Buen timing"
  let base := if (match feels with | some f => decide (f ≤ 5) | none => false) then
      "Mejor indoor por frío"
    else if substrOf "rain" cond || substrOf "drizzle" cond then "Ideal para cubrirte"
    else if context.daypart = "late" then "Abierto a esta hora"
    else base
  pyTake base WHY_MAX

/-- SlotLLM._deterministic_fallback: pick the head option of every slot. -/
def _deterministic_fallback (context : FillContext) (ranked_slots : List RankedSlot) :
    List FilledSlot :=
  ranked_slots.map fun slot =>
    match slot.options with
    | [] => ⟨slot.slot, slot.options, [], ""⟩
    | opt :: _ => ⟨slot.slot, slot.options, [opt.place.place_id], _simple_why_now context⟩

/-- The deterministic per-slot fallback inside SlotLLM._llm_fill (used when
the model returned no pick or an invalid pick for the slot). -/
def llmSlotFallback (context : FillContext) (slot : RankedSlot) : FilledSlot :=
  match slot.options with
  | [] => ⟨slot.slot, slot.options, [], _simple_why_now context⟩
  | opt :: _ => ⟨slot.slot, slot.options, [opt.place.place_id], _simple_why_now context⟩

/-- SlotLLM._llm_fill after the model response has been parsed into a
picks_by_slot mapping (slot_id to selected_place_id and why_now, the
why already truncated to WHY_MAX at parse time).  A pick whose place_id is
not among the slot options falls back to the deterministic head pick. -/
def _llm_fill (context : FillContext) (picks_by_slot : String → Option (Option String × String))
    (ranked_slots : List RankedSlot) : List FilledSlot :=
  ranked_slots.map fun slot =>
    match picks_by_slot slot.slot.slot_id with
    | none => llmSlotFallback context slot
    | some (pid, why) =>
      let valid_ids := slot.options.map (·.place.place_id)
      if valid_ids.contains pid then
        ⟨slot.slot, slot.options, [pid], pyTake why WHY_MAX⟩
      else llmSlotFallback context slot

/-- SlotLLM.fill: with no client (or on any LLM exception) the
deterministic fallback runs; a successfully parsed model response is a
picks mapping.  Both paths are captured by an optional picks argument. -/
def slotLLMFill (context : FillContext)
    (picks : Option (String → Option (Option String × String)))
    (ranked_slots : List RankedSlot) : List FilledSlot :=
  match picks with
  | none => _deterministic_fallback context ranked_slots
  | some p => _llm_fill context p ranked_slots

/-! ## engine.py materialization -/

/-- The stop dict built for a chosen option of slot number i in
_materialize_stops. -/
def mkStop (i : Nat) (slot : FilledSlot) (chosen_opt : RankedOption) : Stop :=
  let p := chosen_opt.place
  { order_index := i
    slot_id := slot.slot.slot_id
    slot_title := slot.slot.title
    slot_role := slot.slot.role
    why_now := slot.why_now
    place_id := p.place_id
    name := p.name.getD ""
    lat := p.lat
    lng := p.lng
    category := match p.category with
      | some c => if c = "" then "other" else c
      | none => "other"
    start := slot.slot.start
    duration_min := slot.slot.duration_min
    open_status := chosen_opt.open_
    open_confidence := chosen_opt.open_confidence
    open_reason := chosen_opt.open_reason
    opening_hours_json := p.opening_hours
    place_types := p.types
    business_status := p.business_status
    rating := p.rating
    popularity := p.user_ratings_total }

/-- V3PlannerEngine._materialize_stops: slots are enumerated (the index
becomes order_index); a slot with no selection is skipped, a selection
whose place_id is not found among the slot options is skipped, otherwise
one stop is emitted per slot. -/
def materialize_stops (slots_filled : List FilledSlot) : List Stop :=
  go 0 slots_filled
where
  go (i : Nat) : List FilledSlot → List Stop
    | [] => []
    | slot :: rest =>
      match slot.selected_place_ids with
      | [] => go (i + 1) rest
      | chosen :: _ =>
        match slot.options.find? (fun o => o.place.place_id == chosen) with
        | none => go (i + 1) rest
        | some chosen_opt => mkStop i slot chosen_opt :: go (i + 1) rest

/-- The tail of V3PlannerEngine.generate from slot construction onward:
build the slots for the template output, rank candidates per slot, fill
selections (deterministic or LLM path), materialize stops, order them by
nearest neighbor.  Candidate fetching and distance are abstracted as
functions (the source providers); weather arrives in the context. -/
def engineFilledSlots (fetch : List String → List Place) (dist : Place → ℚ)
    (dt_local : DT) (slot_specs : List SlotSpec) (weather : WeatherDict)
    (constraints : List String) (discovery_mode : String)
    (picks : Option (String → Option (Option String × String))) : List FilledSlot :=
  let daypart := get_daypart dt_local
  let slots := build_slots dt_local slot_specs weather
  let ranked_slots := rank_slots fetch dist daypart discovery_mode constraints slots
  let context : FillContext := ⟨dt_local % 86400 / 3600, daypart, weather⟩
  slotLLMFill context picks ranked_slots

/-- The chosen_stops list of the V3PlanResult. -/
def engineChosenStops (fetch : List String → List Place) (dist : Place → ℚ)
    (dt_local : DT) (slot_specs : List SlotSpec) (weather : WeatherDict)
    (constraints : List String) (discovery_mode : String)
    (picks : Option (String → Option (Option String × String))) : List Stop :=
  order_stops_nearest_neighbor (materialize_stops
    (engineFilledSlots fetch dist dt_local slot_specs weather constraints
      discovery_mode picks))

/-! ## providers.py (the V3 wrapper with metrics)

Python exceptions are modelled with Except.  The distinguishing point of
safe_cache_incr is which exception class escapes: its try block catches
only ValueError, while the recursive call overflows the interpreter stack
and raises RecursionError, which is not caught. -/

inductive PyErr where
  | recursionError
  | valueError
  | externalError
deriving DecidableEq, Repr

/-- providers.safe_cache_incr.  The body executes
return safe_cache_incr(key, delta) inside a try that catches only
ValueError; the call is to the function itself (not cache.incr), so the
recursion never terminates and the interpreter raises RecursionError once
its recursion limit is reached.  The fuel argument models the remaining
recursion depth allowed by the interpreter. -/
def safe_cache_incr : Nat → Except PyErr Int
  | 0 => .error .recursionError
  | fuel + 1 =>
    match safe_cache_incr fuel with
    | .error .valueError => .ok 1
    | .error e => .error e
    | .ok v => .ok v

/-- providers.Providers._weather_fallback, selected by the current month. -/
def _weather_fallback (month : Nat) : WeatherDict :=
  let tc : ℚ × String :=
    if month = 12 ∨ month = 1 ∨ month = 2 then (8, "cloudy")
    else if month = 3 ∨ month = 4 ∨ month = 5 then (15, "partly cloudy")
    else if month = 6 ∨ month = 7 ∨ month = 8 then (25, "clear")
    else (12, "cloudy")
  { temp := some tc.1, feels_like := some tc.1, condition := some tc.2
    is_raining := some false, is_snowing := some false, windy := none
    precip_prob := some 0, confidence := some "low", source := some "fallback" }

/-- providers.Providers.get_weather on a cache miss (the cache read and
write are elided; a hit returns the cached dict before any of this
runs).  The weather-provider call result is the snapshot argument; month
feeds the fallback; fuel is the interpreter recursion budget for
safe_cache_incr.  The whole body sits in a try whose except handler calls
safe_cache_incr on the failure counter and then returns the fallback. -/
def get_weather (snapshot : Except PyErr WeatherDict) (month : Nat) (fuel : Nat) :
    Except PyErr WeatherDict :=
  let body : Except PyErr WeatherDict :=
    match snapshot with
    | .error e => .error e
    | .ok w =>
      let w := if w.temp.isNone then _weather_fallback month
        else { w with confidence := some "high" }
      match safe_cache_incr fuel with
      | .error e => .error e
      | .ok _ => .ok w
  match body with
  | .ok w => .ok w
  | .error _ =>
    match safe_cache_incr fuel with
    | .error e => .error e
    | .ok _ => .ok (_weather_fallback month)

/-- Deduplication by place_id in fetch_candidates: keep the first
occurrence of each truthy place_id, drop entries with a falsy one. -/
def dedupByPlaceId (l : List Place) : List Place :=
  go [] l
where
  go (seen : List String) : List Place → List Place
    | [] => []
    | p :: rest =>
      match p.place_id with
      | none => go seen rest
      | some pid =>
        if pid = "" then go seen rest
        else if seen.contains pid then go seen rest
        else p :: go (pid :: seen) rest

/-- The per-category loop of fetch_candidates: a failing nearby_search is
handled by a per-category except block that logs and then calls
safe_cache_incr on the failure counter before continuing. -/
def fetchLoop (nearby : String → Except PyErr (List Place)) (fuel : Nat) :
    List String → List Place → Except PyErr (List Place)
  | [], acc => .ok acc
  | cat :: rest, acc =>
    match nearby cat with
    | .ok r => fetchLoop nearby fuel rest (acc ++ r)
    | .error _ =>
      match safe_cache_incr fuel with
      | .error e => .error e
      | .ok _ => fetchLoop nearby fuel rest acc

/-- providers.Providers.fetch_candidates on a cache miss (cache read and
write elided; the opening-hours enrichment catches its own per-place
failures and is value-preserving for the claims here, so it is elided as
well).  After the loop and deduplication the metrics counters are
incremented inside the same try; the outer except handler increments the
failure counter and returns the empty list. -/
def fetch_candidates (nearby : String → Except PyErr (List Place))
    (categories : List String) (enrich_opening_hours : Bool) (fuel : Nat) :
    Except PyErr (List Place) :=
  let body : Except PyErr (List Place) :=
    match fetchLoop nearby fuel categories [] with
    | .error e => .error e
    | .ok results =>
      let unique := dedupByPlaceId results
      match safe_cache_incr fuel with
      | .error e => .error e
      | .ok _ =>
        if enrich_opening_hours then
          match safe_cache_incr fuel with
          | .error e => .error e
          | .ok _ => .ok unique
        else .ok unique
  match body with
  | .ok v => .ok v
  | .error _ =>
    match safe_cache_incr fuel with
    | .error e => .error e
    | .ok _ => .ok []

/-! ## providers_core.py (normalization with strict category validation) -/

/-- providers_core.Providers.CATEGORY_TO_GOOGLE: internal category to
Google place type with optional keyword. -/
def CATEGORY_TO_GOOGLE (cat : String) : Option (String × Option String) :=
  match cat with
  | "restaurant" => some ("restaurant", none)
  | "fine_dining" => some ("fine_dining_restaurant", none)
  | "fast_food" => some ("fast_food_restaurant", none)
  | "casual_dining" => some ("restaurant", some "casual")
  | "mexican_restaurant" => some ("mexican_restaurant", none)
  | "italian_restaurant" => some ("italian_restaurant", none)
  | "chinese_restaurant" => some ("chinese_restaurant", none)
  | "japanese_restaurant" => some ("japanese_restaurant", none)
  | "indian_restaurant" => some ("indian_restaurant", none)
  | "french_restaurant" => some ("french_restaurant", none)
  | "thai_restaurant" => some ("thai_restaurant", none)
  | "spanish_restaurant" => some ("spanish_restaurant", none)
  | "greek_restaurant" => some ("greek_restaurant", none)
  | "korean_restaurant" => some ("korean_restaurant", none)
  | "vietnamese_restaurant" => some ("vietnamese_restaurant", none)
  | "middle_eastern_restaurant" => some ("middle_eastern_restaurant", none)
  | "lebanese_restaurant" => some ("lebanese_restaurant", none)
  | "turkish_restaurant" => some ("turkish_restaurant", none)
  | "brazilian_restaurant" => some ("brazilian_restaurant", none)
  | "indonesian_restaurant" => some ("indonesian_restaurant", none)
  | "mediterranean_restaurant" => some ("mediterranean_restaurant", none)
  | "african_restaurant" => some ("african_restaurant", none)
  | "asian_restaurant" => some ("asian_restaurant", none)
  | "barbecue_restaurant" => some ("barbecue_restaurant", none)
  | "seafood_restaurant" => some ("seafood_restaurant", none)
  | "steak_house" => some ("steak_house", none)
  | "sushi_restaurant" => some ("sushi_restaurant", none)
  | "ramen_restaurant" => some ("ramen_restaurant", none)
  | "pizza_restaurant" => some ("pizza_restaurant", none)
  | "hamburger_restaurant" => some ("hamburger_restaurant", none)
  | "sandwich_shop" => some ("sandwich_shop", none)
  | "breakfast_restaurant" => some ("breakfast_restaurant", none)
  | "brunch_restaurant" => some ("brunch_restaurant", none)
  | "vegan_restaurant" => some ("vegan_restaurant", none)
  | "vegetarian_restaurant" => some ("vegetarian_restaurant", none)
  | "buffet_restaurant" => some ("buffet_restaurant", none)
  | "dessert_restaurant" => some ("dessert_restaurant", none)
  | "diner" => some ("diner", none)
  | "food_court" => some ("food_court", none)
  | "cafeteria" => some ("cafeteria", none)
  | "local_restaurant" => some ("restaurant", some "local")
  | "traditional_food" => some ("restaurant", some "traditional")
  | "ethnic_restaurant" => some ("restaurant", some "ethnic")
  | "romantic_restaurant" => some ("restaurant", some "romantic")
  | "upscale_restaurant" => some ("fine_dining_restaurant", none)
  | "bar" => some ("bar", none)
  | "wine_bar" => some ("wine_bar", none)
  | "pub" => some ("pub", none)
  | "night_club" => some ("night_club", none)
  | "nightclub" => some ("night_club", none)
  | "dance_club" => some ("night_club", some "dance")
  | "cocktail_bar" => some ("bar", some "cocktail")
  | "hotel_bar" => some ("bar", some "hotel")
  | "lounge" => some ("bar", some "lounge")
  | "speakeasy" => some ("bar", some "speakeasy")
  | "jazz_bar" => some ("bar", some "jazz")
  | "karaoke" => some ("karaoke", none)
  | "comedy_club" => some ("comedy_club", none)
  | "cafe" => some ("cafe", none)
  | "coffee_shop" => some ("coffee_shop", none)
  | "tea_house" => some ("tea_house", none)
  | "bakery" => some ("bakery", none)
  | "ice_cream_shop" => some ("ice_cream_shop", none)
  | "dessert_shop" => some ("dessert_shop", none)
  | "donut_shop" => some ("donut_shop", none)
  | "bagel_shop" => some ("bagel_shop", none)
  | "chocolate_shop" => some ("chocolate_shop", none)
  | "candy_store" => some ("candy_store", none)
  | "juice_shop" => some ("juice_shop", none)
  | "specialty_coffee" => some ("coffee_shop", some "specialty")
  | "roastery" => some ("coffee_shop", some "roastery")
  | "third_wave_coffee" => some ("coffee_shop", some "third wave")
  | "meal_takeaway" => some ("meal_takeaway", none)
  | "meal_delivery" => some ("meal_delivery", none)
  | "fast_food_restaurant" => some ("fast_food_restaurant", none)
  | "late_food" => some ("meal_takeaway", some "late night")
  | "street_food" => some ("meal_takeaway", some "street food")
  | "food_truck" => some ("meal_takeaway", some "food truck")
  | "tourist_attraction" => some ("tourist_attraction", none)
  | "amusement_park" => some ("amusement_park", none)
  | "amusement_center" => some ("amusement_center", none)
  | "water_park" => some ("water_park", none)
  | "theme_park" => some ("amusement_park", some "theme")
  | "aquarium" => some ("aquarium", none)
  | "zoo" => some ("zoo", none)
  | "wildlife_park" => some ("wildlife_park", none)
  | "wildlife_refuge" => some ("wildlife_refuge", none)
  | "landmark" => some ("tourist_attraction", some "landmark")
  | "historical_landmark" => some ("historical_landmark", none)
  | "monument" => some ("monument", none)
  | "observation_deck" => some ("observation_deck", none)
  | "viewpoint" => some ("observation_deck", some "viewpoint")
  | "scenic_spot" => some ("observation_deck", some "scenic")
  | "photo_spot" => some ("tourist_attraction", some "photo")
  | "historic_site" => some ("historical_landmark", none)
  | "historical_place" => some ("historical_place", none)
  | "cultural_landmark" => some ("cultural_landmark", none)
  | "castle" => some ("historical_landmark", some "castle")
  | "sculpture" => some ("sculpture", none)
  | "park" => some ("park", none)
  | "national_park" => some ("national_park", none)
  | "state_park" => some ("state_park", none)
  | "dog_park" => some ("dog_park", none)
  | "botanical_garden" => some ("botanical_garden", none)
  | "garden" => some ("garden", none)
  | "plaza" => some ("plaza", none)
  | "picnic_ground" => some ("picnic_ground", none)
  | "barbecue_area" => some ("barbecue_area", none)
  | "hiking_area" => some ("hiking_area", none)
  | "trail" => some ("hiking_area", some "trail")
  | "cycling_park" => some ("cycling_park", none)
  | "skateboard_park" => some ("skateboard_park", none)
  | "adventure_sports_center" => some ("adventure_sports_center", none)
  | "off_roading_area" => some ("off_roading_area", none)
  | "beach" => some ("beach", none)
  | "waterfront" => some ("tourist_attraction", some "waterfront")
  | "marina" => some ("marina", none)
  | "movie_theater" => some ("movie_theater", none)
  | "cinema" => some ("movie_theater", none)
  | "bowling_alley" => some ("bowling_alley", none)
  | "casino" => some ("casino", none)
  | "event_venue" => some ("event_venue", none)
  | "convention_center" => some ("convention_center", none)
  | "wedding_venue" => some ("wedding_venue", none)
  | "banquet_hall" => some ("banquet_hall", none)
  | "video_arcade" => some ("video_arcade", none)
  | "internet_cafe" => some ("internet_cafe", none)
  | "ferris_wheel" => some ("ferris_wheel", none)
  | "roller_coaster" => some ("roller_coaster", none)
  | "museum" => some ("museum", none)
  | "art_gallery" => some ("art_gallery", none)
  | "art_studio" => some ("art_studio", none)
  | "performing_arts_theater" => some ("performing_arts_theater", none)
  | "theater" => some ("performing_arts_theater", none)
  | "opera_house" => some ("opera_house", none)
  | "concert_hall" => some ("concert_hall", none)
  | "philharmonic_hall" => some ("philharmonic_hall", none)
  | "auditorium" => some ("auditorium", none)
  | "amphitheatre" => some ("amphitheatre", none)
  | "planetarium" => some ("planetarium", none)
  | "cultural_center" => some ("cultural_center", none)
  | "community_center" => some ("community_center", none)
  | "visitor_center" => some ("visitor_center", none)
  | "shopping_mall" => some ("shopping_mall", none)
  | "shopping_area" => some ("store", some "shopping street")
  | "market" => some ("market", none)
  | "supermarket" => some ("supermarket", none)
  | "grocery_store" => some ("grocery_store", none)
  | "convenience_store" => some ("convenience_store", none)
  | "department_store" => some ("department_store", none)
  | "store" => some ("store", none)
  | "book_store" => some ("book_store", none)
  | "clothing_store" => some ("clothing_store", none)
  | "shoe_store" => some ("shoe_store", none)
  | "jewelry_store" => some ("jewelry_store", none)
  | "gift_shop" => some ("gift_shop", none)
  | "electronics_store" => some ("electronics_store", none)
  | "furniture_store" => some ("furniture_store", none)
  | "home_goods_store" => some ("home_goods_store", none)
  | "sporting_goods_store" => some ("sporting_goods_store", none)
  | "boutique" => some ("clothing_store", some "boutique")
  | "vintage" => some ("clothing_store", some "vintage")
  | "concept_store" => some ("store", some "concept")
  | "gym" => some ("gym", none)
  | "fitness_center" => some ("fitness_center", none)
  | "yoga_studio" => some ("yoga_studio", none)
  | "sports_club" => some ("sports_club", none)
  | "sports_complex" => some ("sports_complex", none)
  | "stadium" => some ("stadium", none)
  | "arena" => some ("arena", none)
  | "golf_course" => some ("golf_course", none)
  | "swimming_pool" => some ("swimming_pool", none)
  | "ice_skating_rink" => some ("ice_skating_rink", none)
  | "ski_resort" => some ("ski_resort", none)
  | "playground" => some ("playground", none)
  | "athletic_field" => some ("athletic_field", none)
  | "spa" => some ("spa", none)
  | "sauna" => some ("sauna", none)
  | "massage" => some ("massage", none)
  | "wellness_center" => some ("wellness_center", none)
  | "beauty_salon" => some ("beauty_salon", none)
  | "hair_salon" => some ("hair_salon", none)
  | "nail_salon" => some ("nail_salon", none)
  | "barber_shop" => some ("barber_shop", none)
  | "hotel" => some ("hotel", none)
  | "lodging" => some ("lodging", none)
  | "resort_hotel" => some ("resort_hotel", none)
  | "motel" => some ("motel", none)
  | "hostel" => some ("hostel", none)
  | "bed_and_breakfast" => some ("bed_and_breakfast", none)
  | "guest_house" => some ("guest_house", none)
  | "campground" => some ("campground", none)
  | "travel_agency" => some ("travel_agency", none)
  | "tour_agency" => some ("tour_agency", none)
  | "tourist_information_center" => some ("tourist_information_center", none)
  | "church" => some ("church", none)
  | "mosque" => some ("mosque", none)
  | "synagogue" => some ("synagogue", none)
  | "hindu_temple" => some ("hindu_temple", none)
  | "airport" => some ("airport", none)
  | "train_station" => some ("train_station", none)
  | "bus_station" => some ("bus_station", none)
  | "subway_station" => some ("subway_station", none)
  | "transit_station" => some ("transit_station", none)
  | "parking" => some ("parking", none)
  | "gas_station" => some ("gas_station", none)
  | _ => none

/-- providers_core.Providers.GOOGLE_TYPES_TABLE_A. -/
def GOOGLE_TYPES_TABLE_A : List String :=
  ["restaurant", "fine_dining_restaurant", "fast_food_restaurant",
   "mexican_restaurant", "italian_restaurant", "chinese_restaurant", "japanese_restaurant",
   "indian_restaurant", "french_restaurant", "thai_restaurant", "spanish_restaurant",
   "greek_restaurant", "korean_restaurant", "vietnamese_restaurant", "middle_eastern_restaurant",
   "lebanese_restaurant", "turkish_restaurant", "brazilian_restaurant", "indonesian_restaurant",
   "mediterranean_restaurant", "african_restaurant", "asian_restaurant", "american_restaurant",
   "barbecue_restaurant", "seafood_restaurant", "steak_house", "sushi_restaurant",
   "ramen_restaurant", "pizza_restaurant", "hamburger_restaurant", "sandwich_shop",
   "breakfast_restaurant", "brunch_restaurant", "vegan_restaurant", "vegetarian_restaurant",
   "buffet_restaurant", "dessert_restaurant", "diner", "food_court", "cafeteria",
   "bar", "wine_bar", "pub", "night_club", "karaoke", "comedy_club",
   "cafe", "coffee_shop", "tea_house", "bakery", "ice_cream_shop", "dessert_shop",
   "donut_shop", "bagel_shop", "chocolate_shop", "candy_store", "juice_shop",
   "meal_takeaway", "meal_delivery",
   "tourist_attraction", "amusement_park", "amusement_center", "water_park",
   "aquarium", "zoo", "wildlife_park", "wildlife_refuge",
   "historical_landmark", "monument", "observation_deck", "historical_place",
   "cultural_landmark", "sculpture",
   "park", "national_park", "state_park", "dog_park", "botanical_garden", "garden", "plaza",
   "picnic_ground", "barbecue_area", "hiking_area", "cycling_park", "skateboard_park",
   "adventure_sports_center", "off_roading_area", "beach", "marina",
   "movie_theater", "bowling_alley", "casino", "event_venue", "convention_center",
   "wedding_venue", "banquet_hall", "video_arcade", "internet_cafe",
   "ferris_wheel", "roller_coaster",
   "museum", "art_gallery", "art_studio", "performing_arts_theater", "opera_house",
   "concert_hall", "philharmonic_hall", "auditorium", "amphitheatre", "planetarium",
   "cultural_center", "community_center", "visitor_center",
   "shopping_mall", "market", "supermarket", "grocery_store", "convenience_store",
   "department_store", "store", "book_store", "clothing_store", "shoe_store",
   "jewelry_store", "gift_shop", "electronics_store", "furniture_store",
   "home_goods_store", "sporting_goods_store",
   "gym", "fitness_center", "yoga_studio", "sports_club", "sports_complex",
   "stadium", "arena", "golf_course", "swimming_pool", "ice_skating_rink",
   "ski_resort", "playground", "athletic_field",
   "spa", "sauna", "massage", "wellness_center", "beauty_salon", "hair_salon",
   "nail_salon", "barber_shop",
   "hotel", "lodging", "resort_hotel", "motel", "hostel", "bed_and_breakfast",
   "guest_house", "campground",
   "travel_agency", "tour_agency", "tourist_information_center",
   "church", "mosque", "synagogue", "hindu_temple",
   "airport", "train_station", "bus_station", "subway_station", "transit_station",
   "parking", "gas_station"]

/-- Membership in table_a_matches, the intersection of the provider types
with GOOGLE_TYPES_TABLE_A. -/
def inTableAMatches (provider_types : List String) (ty : String) : Bool :=
  provider_types.contains ty && GOOGLE_TYPES_TABLE_A.contains ty

/-- The cuisine list scanned by _guess_category (the .replace("_","_") in
the source is the identity). -/
def guessCuisineList : List String :=
  ["mexican_restaurant", "italian_restaurant", "chinese_restaurant",
   "japanese_restaurant", "indian_restaurant", "french_restaurant",
   "thai_restaurant", "spanish_restaurant", "korean_restaurant",
   "vietnamese_restaurant", "seafood_restaurant", "steak_house",
   "sushi_restaurant", "pizza_restaurant"]

/-- providers_core.Providers._guess_category.  The final
list(table_a_matches)[0] takes an element of a Python set with
unspecified iteration order; it is modelled as the first provider type
that is a Table A match. -/
def _guess_category (provider_types : List String) (desired_categories : List String) :
    String :=
  let inA := inTableAMatches provider_types
  if provider_types.any (fun ty => GOOGLE_TYPES_TABLE_A.contains ty) then
    match desired_categories.find? (fun desired =>
        match CATEGORY_TO_GOOGLE desired with
        | some m => inA m.1
        | none => false) with
    | some desired => desired
    | none =>
      if inA "fine_dining_restaurant" then "fine_dining"
      else if inA "fast_food_restaurant" then "fast_food"
      else match guessCuisineList.find? inA with
      | some cuisine => cuisine
      | none =>
        if inA "restaurant" then "restaurant"
        else if inA "night_club" then "nightclub"
        else if inA "wine_bar" then "wine_bar"
        else if inA "pub" then "pub"
        else if inA "bar" then "bar"
        else if inA "coffee_shop" then "coffee_shop"
        else if inA "cafe" then "cafe"
        else if inA "tea_house" then "tea_house"
        else if inA "bakery" then "bakery"
        else if inA "ice_cream_shop" then "ice_cream_shop"
        else if inA "meal_takeaway" || inA "meal_delivery" then "meal_takeaway"
        else if inA "monument" then "monument"
        else if inA "historical_landmark" then "landmark"
        else if inA "observation_deck" then "viewpoint"
        else if inA "historical_place" then "historic_site"
        else if inA "cultural_landmark" then "landmark"
        else if inA "museum" then "museum"
        else if inA "art_gallery" then "art_gallery"
        else if inA "performing_arts_theater" then "theater"
        else if inA "national_park" then "national_park"
        else if inA "dog_park" then "dog_park"
        else if inA "botanical_garden" then "botanical_garden"
        else if inA "park" then "park"
        else if inA "amusement_park" then "amusement_park"
        else if inA "water_park" then "water_park"
        else if inA "aquarium" then "aquarium"
        else if inA "zoo" then "zoo"
        else if inA "movie_theater" then "cinema"
        else if inA "casino" then "casino"
        else if inA "shopping_mall" then "shopping_mall"
        else if inA "market" then "market"
        else if inA "supermarket" then "supermarket"
        else if inA "store" then "store"
        else if inA "gym" || inA "fitness_center" then "gym"
        else if inA "stadium" then "stadium"
        else if inA "hotel" || inA "lodging" then "hotel"
        else match provider_types.find? (fun ty => GOOGLE_TYPES_TABLE_A.contains ty) with
        | some ty => ty
        | none => "other"
  else if provider_types.contains "tourist_attraction" ||
      provider_types.contains "point_of_interest" then
    if desired_categories.contains "tourist_attraction" then "tourist_attraction"
    else if desired_categories.contains "landmark" then "landmark"
    else if desired_categories.contains "viewpoint" then "viewpoint"
    else "other"
  else "other"

/-- A raw place record from the Google nearby or details response, before
normalization.  geometry_location is geometry.location when geometry is a
dict holding a location dict with lat and lng; location is the top-level
location fallback. -/
structure RawPlace where
  place_id : Option String
  name : Option String
  geometry_location : Option (ℚ × ℚ)
  location : Option (ℚ × ℚ)
  types : List String
  rating : Option ℚ
  user_ratings_total : Option ℚ
  opening_hours : Option OpeningHours
  business_status : Option String
deriving DecidableEq, Repr, Inhabited

/-- providers_core.Providers._normalize_google_place.  Places without
coordinates are dropped; the derived category must not be "other" (strict
category validation) or the place is dropped; every kept place gets
is_indoor True, noise_level None, tourist_density 0 and local_favorite
False.  A falsy or non-dict opening_hours becomes the empty dict, which
the Option model folds into the periods-missing case. -/
def _normalize_google_place (p : RawPlace) (preferred_categories : List String) :
    Option Place :=
  let loc := match p.geometry_location with
    | some l => some l
    | none => p.location
  match loc with
  | none => none
  | some l =>
    let types := p.types
    let category_guess := _guess_category types preferred_categories
    if category_guess = "other" then none
    else some
      { place_id := p.place_id
        name := p.name
        lat := l.1
        lng := l.2
        rating := p.rating
        user_ratings_total := p.user_ratings_total
        types := types
        opening_hours := p.opening_hours
        business_status := p.business_status
        category := some category_guess
        is_indoor := some true
        noise_level := none
        tourist_density := some 0
        local_favorite := some false }

/-! ## Specification-side definitions and concrete fixtures for the claims -/

/-- A fully given opening-hours period, written as
(open day, open time, close day, close time). -/
def mkPeriod (w : Int × String × Int × String) : Period :=
  ⟨some ⟨w.1, w.2.1⟩, some ⟨w.2.2.1, w.2.2.2⟩⟩

/-- The interval a period denotes according to the specification wording:
map open.day (0=Sunday) to a concrete datetime relative to the local week
of start, map close.day and close.time similarly, and if the computed
close is not after the open, add one day (overnight period). -/
def specWeekInterval (start_dt : DT) (w : Int × String × Int × String) : DT × DT :=
  let wd : Int := _weekday_google start_dt
  let o_time := _parse_hhmm w.2.1
  let c_time := _parse_hhmm w.2.2.2
  let delta_open_days : Nat := ((w.1 - wd) % 7).toNat
  let delta_close_days : Nat := ((w.2.2.1 - wd) % 7).toNat
  let open_dt := _dt_at_local_date (start_dt + 86400 * delta_open_days) o_time
  let close_dt := _dt_at_local_date (start_dt + 86400 * delta_close_days) c_time
  (open_dt, if close_dt ≤ open_dt then close_dt + 86400 else close_dt)

/-- A minimal candidate place fixture. -/
def mkCand (pid : String) (lat lng : ℚ) : Place :=
  { place_id := some pid, name := some pid, lat := lat, lng := lng
    rating := none, user_ratings_total := none, types := []
    opening_hours := none, business_status := none
    category := some "cafe", is_indoor := some true, noise_level := none
    tourist_density := some 0, local_favorite := some false }

/-- A weather snapshot with mild clear weather (no structural effects). -/
def benignWeather : WeatherDict :=
  { temp := some 15, feels_like := some 15, condition := some "clear"
    is_raining := some false, is_snowing := some false, windy := some false
    precip_prob := none, confidence := some "high", source := none }

/-- The coffee_hop slot specs as chosen by the engine for a 4-hour
medium-energy coffee intent (the template is returned unchanged). -/
def coffeeSpecs : List SlotSpec :=
  (choose_template "coffee" "now" 12 4 "medium").2

/-- A candidates function returning one distinct place per coffee_hop
slot, at coordinates that make the nearest-neighbor tour leave slot
order: slot one gets A at (0,0), slot two gets B at (0,2), slot three
gets C at (0,1). -/
def fetchZigzag (cats : List String) : List Place :=
  if cats.contains "bakery" then [mkCand "B" 0 2]
  else if cats.contains "cafe" then [mkCand "C" 0 1]
  else [mkCand "A" 0 0]

/-- The engine run used to examine the ordering claim: coffee_hop at noon
with benign weather, deterministic selection. -/
def zigzagRun : List Stop :=
  engineChosenStops fetchZigzag (fun _ => 0) 43200 coffeeSpecs benignWeather [] "local" none

/-- A candidates function returning the same single place for every
category query. -/
def fetchSame (_ : List String) : List Place := [mkCand "P" 1 1]

/-- The engine run used to examine the uniqueness claim: every slot ends
up selecting place P. -/
def sameRun : List Stop :=
  engineChosenStops fetchSame (fun _ => 0) 43200 coffeeSpecs benignWeather [] "local" none

/-- A place flagged permanently closed that nevertheless has a Monday
09:00 to 17:00 period. -/
def permClosedPlace : Place :=
  { place_id := some "perm", name := some "Museo X", lat := 0, lng := 0
    rating := none, user_ratings_total := none, types := []
    opening_hours := some ⟨some [mkPeriod (1, "0900", 1, "1700")]⟩
    business_status := some "CLOSED_PERMANENTLY"
    category := some "museum", is_indoor := none, noise_level := none
    tourist_density := none, local_favorite := none }

/-- The same fixture flagged temporarily closed. -/
def tempClosedPlace : Place :=
  { permClosedPlace with business_status := some "CLOSED_TEMPORARILY" }

/-- A place whose only period opens at 22:00 on google weekday
(d+1) mod 7 and closes at 02:00 the following weekday: the overnight
fixture of the specification, for a start on reference day d at 23:00. -/
def overnightPlace (d : Fin 7) : Place :=
  { permClosedPlace with
    business_status := none
    opening_hours := some ⟨some [mkPeriod
      (((d.val + 1) % 7 : Nat), "2200", (((d.val + 2) % 7 : Nat)), "0200")]⟩ }

/-- A place with a single Monday 09:00 to 17:00 period and no
business-status flag (used to instantiate the open-hours claims). -/
def mondayPlace : Place :=
  { permClosedPlace with business_status := none }

/-- A raw Google place fixture with a cafe type. -/
def rawCafe : RawPlace :=
  { place_id := some "w", name := some "Cafe W", geometry_location := some (1, 2)
    location := none, types := ["cafe"], rating := some 4
    user_ratings_total := some 100, opening_hours := none
    business_status := some "OPERATIONAL" }

/-- The normalization of rawCafe when a cafe was requested. -/
def normCafe : Place :=
  { place_id := some "w", name := some "Cafe W", lat := 1, lng := 2
    rating := some 4, user_ratings_total := some 100, types := ["cafe"]
    opening_hours := none, business_status := some "OPERATIONAL"
    category := some "cafe", is_indoor := some true, noise_level := none
    tourist_density := some 0, local_favorite := some false }

/-! ## Lemmas about the nearest-neighbor ordering -/

theorem extractMin_eq_none_iff (last : Stop) (l : List Stop) :
    extractMin last l = none ↔ l = [] := by
  cases l with
  | nil => simp [extractMin]
  | cons x xs =>
    cases hx : extractMin last xs with
    | none => simp [extractMin, hx]
    | some p =>
      obtain ⟨y, ys⟩ := p
      simp only [extractMin, hx]
      constructor
      · intro h; split at h <;> simp_all
      · intro h; simp at h

theorem extractMin_length (last : Stop) :
    ∀ (l : List Stop) (c : Stop) (r : List Stop),
      extractMin last l = some (c, r) → r.length + 1 = l.length := by
  intro l
  induction l with
  | nil => intro c r h; simp [extractMin] at h
  | cons x xs ih =>
    intro c r h
    cases hx : extractMin last xs with
    | none =>
      simp only [extractMin, hx] at h
      cases h
      simp
    | some p =>
      obtain ⟨y, ys⟩ := p
      simp only [extractMin, hx] at h
      split at h
      · cases h; simp
      · cases h
        have h2 := ih _ _ hx
        simp only [List.length_cons] at h2 ⊢
        omega

theorem extractMin_perm (last : Stop) :
    ∀ (l : List Stop) (c : Stop) (r : List Stop),
      extractMin last l = some (c, r) → l.Perm (c :: r) := by
  intro l
  induction l with
  | nil => intro c r h; simp [extractMin] at h
  | cons x xs ih =>
    intro c r h
    cases hx : extractMin last xs with
    | none =>
      simp only [extractMin, hx] at h
      cases h
      exact List.Perm.refl _
    | some p =>
      obtain ⟨y, ys⟩ := p
      simp only [extractMin, hx] at h
      split at h
      · cases h; exact List.Perm.refl _
      · cases h
        exact ((ih _ _ hx).cons x).trans (List.Perm.swap _ _ _)

theorem extractMin_min (last : Stop) :
    ∀ (l : List Stop) (c : Stop) (r : List Stop),
      extractMin last l = some (c, r) → ∀ y ∈ l, _dist2 last c ≤ _dist2 last y := by
  intro l
  induction l with
  | nil => intro c r h; simp [extractMin] at h
  | cons x xs ih =>
    intro c r h y hy
    cases hx : extractMin last xs with
    | none =>
      simp only [extractMin, hx] at h
      cases h
      have hnil : xs = [] := (extractMin_eq_none_iff last xs).mp hx
      subst hnil
      simp at hy
      subst hy
      exact le_refl _
    | some p =>
      obtain ⟨z, zs⟩ := p
      simp only [extractMin, hx] at h
      split at h <;> rename_i hle
      · cases h
        rcases List.mem_cons.mp hy with rfl | hmem
        · exact le_refl _
        · exact le_trans hle (ih _ _ hx y hmem)
      · cases h
        rcases List.mem_cons.mp hy with rfl | hmem
        · exact le_of_not_le hle
        · exact ih _ _ hx y hmem

theorem extractMin_head (last c : Stop) (ys : List Stop)
    (h : ∀ y ∈ ys, _dist2 last c ≤ _dist2 last y) :
    extractMin last (c :: ys) = some (c, ys) := by
  cases hx : extractMin last ys with
  | none => simp [extractMin, hx]
  | some p =>
    obtain ⟨z, zs⟩ := p
    have hz : z ∈ ys := (extractMin_perm last ys z zs hx).symm.subset (List.mem_cons_self z zs)
    simp only [extractMin, hx]
    rw [if_pos (h z hz)]

theorem nnAux_perm : ∀ (n : Nat) (last : Stop) (rem : List Stop),
    rem.length ≤ n → (nnAux n last rem).Perm rem := by
  intro n
  induction n with
  | zero =>
    intro last rem h
    have hnil : rem = [] := List.length_eq_zero.mp (Nat.le_zero.mp h)
    subst hnil
    simp [nnAux]
  | succ n ih =>
    intro last rem h
    cases hx : extractMin last rem with
    | none =>
      have hnil : rem = [] := (extractMin_eq_none_iff last rem).mp hx
      subst hnil
      simp [nnAux, hx]
    | some p =>
      obtain ⟨c, r⟩ := p
      have hlen := extractMin_length last rem c r hx
      have hr : r.length ≤ n := by omega
      simp only [nnAux, hx]
      exact ((ih c r hr).cons c).trans (extractMin_perm last rem c r hx).symm

theorem nnAux_idem : ∀ (n : Nat) (last : Stop) (rem : List Stop),
    rem.length ≤ n → nnAux n last (nnAux n last rem) = nnAux n last rem := by
  intro n
  induction n with
  | zero => intro last rem h; simp [nnAux]
  | succ n ih =>
    intro last rem h
    cases hx : extractMin last rem with
    | none =>
      have hnil : rem = [] := (extractMin_eq_none_iff last rem).mp hx
      subst hnil
      simp [nnAux, hx]
    | some p =>
      obtain ⟨c, r⟩ := p
      have hlen := extractMin_length last rem c r hx
      have hr : r.length ≤ n := by omega
      have hperm := nnAux_perm n c r hr
      have hminhead : extractMin last (c :: nnAux n c r) = some (c, nnAux n c r) := by
        apply extractMin_head
        intro y hy
        have hyr : y ∈ r := hperm.subset hy
        have hyrem : y ∈ rem := (extractMin_perm last rem c r hx).symm.subset
          (List.mem_cons_of_mem c hyr)
        exact extractMin_min last rem c r hx y hyrem
      have hrem : nnAux (n + 1) last rem = c :: nnAux n c r := by
        simp [nnAux, hx]
      rw [hrem]
      simp only [nnAux, hminhead]
      rw [ih c r hr]

theorem order_stops_perm (l : List Stop) :
    (order_stops_nearest_neighbor l).Perm l := by
  by_cases hlen : l.length ≤ 2
  · simp [order_stops_nearest_neighbor, hlen]
  · cases l with
    | nil => simp at hlen
    | cons s0 rest =>
      simp only [order_stops_nearest_neighbor, if_neg hlen]
      exact (nnAux_perm rest.length s0 rest (le_refl _)).cons s0

/-- C9: nearest-neighbor ordering is a fixed point of itself, keeps the
first stop of the input as its first output, and only permutes the
remaining stops. -/
theorem c9_nearest_neighbor_fixed_point : ∀ stops : List Stop,
    order_stops_nearest_neighbor (order_stops_nearest_neighbor stops) =
      order_stops_nearest_neighbor stops ∧
    (order_stops_nearest_neighbor stops).head? = stops.head? ∧
    (order_stops_nearest_neighbor stops).tail.Perm stops.tail := by
  intro stops
  by_cases hlen : stops.length ≤ 2
  · simp [order_stops_nearest_neighbor, hlen]
  · cases stops with
    | nil => simp at hlen
    | cons s0 rest =>
      have haux : (nnAux rest.length s0 rest).Perm rest := nnAux_perm _ _ _ (le_refl _)
      have hout : order_stops_nearest_neighbor (s0 :: rest) =
          s0 :: nnAux rest.length s0 rest := by
        simp only [order_stops_nearest_neighbor, if_neg hlen]
      have hlen1 : (s0 :: nnAux rest.length s0 rest).length = (s0 :: rest).length := by
        simp [haux.length_eq]
      refine ⟨?_, by rw [hout]; rfl, by rw [hout]; exact haux⟩
      rw [hout]
      have hlen2 : ¬ (s0 :: nnAux rest.length s0 rest).length ≤ 2 := by
        rw [hlen1]; exact hlen
      simp only [order_stops_nearest_neighbor, if_neg hlen2]
      rw [haux.length_eq, nnAux_idem rest.length s0 rest (le_refl _)]

/-! ## Lemmas about ranking, selection and materialization -/

theorem mem_materialize_go : ∀ (i : Nat) (fs : List FilledSlot) (s : Stop),
    s ∈ materialize_stops.go i fs →
    ∃ f ∈ fs, ∃ opt ∈ f.options, ∃ j, s = mkStop j f opt := by
  intro i fs
  induction fs generalizing i with
  | nil => intro s hs; simp [materialize_stops.go] at hs
  | cons f rest ih =>
    intro s hs
    simp only [materialize_stops.go] at hs
    cases hsel : f.selected_place_ids with
    | nil =>
      rw [hsel] at hs
      obtain ⟨g, hg, opt, hopt, j, hj⟩ := ih (i + 1) s hs
      exact ⟨g, List.mem_cons_of_mem f hg, opt, hopt, j, hj⟩
    | cons chosen cs =>
      rw [hsel] at hs
      simp only at hs
      cases hfind : f.options.find? (fun o => o.place.place_id == chosen) with
      | none =>
        rw [hfind] at hs
        obtain ⟨g, hg, opt, hopt, j, hj⟩ := ih (i + 1) s hs
        exact ⟨g, List.mem_cons_of_mem f hg, opt, hopt, j, hj⟩
      | some chosen_opt =>
        rw [hfind] at hs
        rcases List.mem_cons.mp hs with rfl | hmem
        · exact ⟨f, List.mem_cons_self f rest, chosen_opt,
            List.mem_of_find?_eq_some hfind, i, rfl⟩
        · obtain ⟨g, hg, opt, hopt, j, hj⟩ := ih (i + 1) s hmem
          exact ⟨g, List.mem_cons_of_mem f hg, opt, hopt, j, hj⟩

theorem rank_slots_open (fetch : List String → List Place) (dist : Place → ℚ)
    (daypart discovery_mode : String) (constraints : List String) (slots : List Slot) :
    ∀ rs ∈ rank_slots fetch dist daypart discovery_mode constraints slots,
      ∀ o ∈ rs.options, o.open_ ≠ some false := by
  intro rs hrs o ho
  simp only [rank_slots, List.mem_map] at hrs
  obtain ⟨slot, _, rfl⟩ := hrs
  simp only at ho
  have ho2 := List.mem_of_mem_take ho
  have ho3 := (List.perm_insertionSort _ _).subset ho2
  obtain ⟨place, _, hrank⟩ := List.mem_filterMap.mp ho3
  unfold rankOneCandidate at hrank
  by_cases hopen : (compute_open_status place slot.start slot.duration_min).is_open = some false
  · rw [if_pos hopen] at hrank; cases hrank
  · rw [if_neg hopen] at hrank
    cases hrank
    exact hopen

theorem fill_preserves (context : FillContext)
    (picks : Option (String → Option (Option String × String)))
    (ranked_slots : List RankedSlot) :
    ∀ f ∈ slotLLMFill context picks ranked_slots,
      ∃ rs ∈ ranked_slots, f.options = rs.options ∧ f.slot = rs.slot := by
  intro f hf
  cases picks with
  | none =>
    simp only [slotLLMFill, _deterministic_fallback, List.mem_map] at hf
    obtain ⟨rs, hrs, hbody⟩ := hf
    refine ⟨rs, hrs, ?_⟩
    cases hopt : rs.options with
    | nil => rw [hopt] at hbody; cases hbody; simp [hopt]
    | cons o os => rw [hopt] at hbody; cases hbody; simp [hopt]
  | some p =>
    simp only [slotLLMFill, _llm_fill, List.mem_map] at hf
    obtain ⟨rs, hrs, hbody⟩ := hf
    refine ⟨rs, hrs, ?_⟩
    cases hp : p rs.slot.slot_id with
    | none =>
      rw [hp] at hbody
      unfold llmSlotFallback at hbody
      cases hopt : rs.options with
      | nil => rw [hopt] at hbody; cases hbody; simp [hopt]
      | cons o os => rw [hopt] at hbody; cases hbody; simp [hopt]
    | some pick =>
      obtain ⟨pid, why⟩ := pick
      rw [hp] at hbody
      simp only at hbody
      split at hbody
      · cases hbody; exact ⟨rfl, rfl⟩
      · unfold llmSlotFallback at hbody
        cases hopt : rs.options with
        | nil => rw [hopt] at hbody; cases hbody; simp [hopt]
        | cons o os => rw [hopt] at hbody; cases hbody; simp [hopt]

theorem fill_map_slot (context : FillContext)
    (picks : Option (String → Option (Option String × String)))
    (ranked : List RankedSlot) :
    (slotLLMFill context picks ranked).map (·.slot) = ranked.map (·.slot) := by
  cases picks with
  | none =>
    induction ranked with
    | nil => rfl
    | cons rs rest ih =>
      simp only [slotLLMFill, _deterministic_fallback, List.map_cons] at ih ⊢
      refine congrArg₂ _ ?_ ih
      cases hopt : rs.options <;> simp
  | some p =>
    induction ranked with
    | nil => rfl
    | cons rs rest ih =>
      simp only [slotLLMFill, _llm_fill, List.map_cons] at ih ⊢
      refine congrArg₂ _ ?_ ih
      cases hp : p rs.slot.slot_id with
      | none =>
        simp only
        unfold llmSlotFallback
        cases hopt : rs.options <;> simp
      | some pick =>
        obtain ⟨pid, why⟩ := pick
        simp only
        split
        · rfl
        · unfold llmSlotFallback
          cases hopt : rs.options <;> simp

theorem buildOneSlot_shape (wp : WeatherProfile) (cc : List String) (cursor : DT)
    (spec : SlotSpec) (slot : Slot) (h : buildOneSlot wp cc cursor spec = some slot) :
    slot.start = cursor ∧ slot.end_ = cursor + 60 * slot.duration_min := by
  unfold buildOneSlot at h
  split at h
  · cases h
  · cases h
    exact ⟨rfl, rfl⟩

theorem build_slots_go_mem (wp : WeatherProfile) (cc : List String) :
    ∀ (specs : List SlotSpec) (cursor : DT) (slot : Slot),
      slot ∈ build_slots.go wp cc cursor specs →
      cursor ≤ slot.start ∧ slot.end_ = slot.start + 60 * slot.duration_min := by
  intro specs
  induction specs with
  | nil => intro cursor slot h; simp [build_slots.go] at h
  | cons spec rest ih =>
    intro cursor slot h
    simp only [build_slots.go] at h
    cases hb : buildOneSlot wp cc cursor spec with
    | none =>
      rw [hb] at h
      exact ih cursor slot h
    | some s =>
      rw [hb] at h
      obtain ⟨hstart, hend⟩ := buildOneSlot_shape wp cc cursor spec s hb
      rcases List.mem_cons.mp h with rfl | hmem
      · exact ⟨le_of_eq hstart.symm, by rw [hend, hstart]⟩
      · have h2 := ih s.end_ slot hmem
        refine ⟨le_trans ?_ h2.1, h2.2⟩
        rw [hend]
        exact Nat.le_add_right _ _

theorem build_slots_go_head (wp : WeatherProfile) (cc : List String) :
    ∀ (specs : List SlotSpec) (cursor : DT) (slot : Slot),
      (build_slots.go wp cc cursor specs).head? = some slot → slot.start = cursor := by
  intro specs
  induction specs with
  | nil => intro cursor slot h; simp [build_slots.go] at h
  | cons spec rest ih =>
    intro cursor slot h
    simp only [build_slots.go] at h
    cases hb : buildOneSlot wp cc cursor spec with
    | none => rw [hb] at h; exact ih cursor slot h
    | some s =>
      rw [hb] at h
      simp only [List.head?_cons, Option.some.injEq] at h
      subst h
      exact (buildOneSlot_shape wp cc cursor spec s hb).1

theorem build_slots_go_chain (wp : WeatherProfile) (cc : List String) :
    ∀ (specs : List SlotSpec) (cursor : DT),
      List.Chain' (fun a b => b.start = a.end_) (build_slots.go wp cc cursor specs) := by
  intro specs
  induction specs with
  | nil => intro cursor; simp [build_slots.go]
  | cons spec rest ih =>
    intro cursor
    simp only [build_slots.go]
    cases hb : buildOneSlot wp cc cursor spec with
    | none => exact ih cursor
    | some s =>
      rw [List.chain'_cons']
      refine ⟨?_, ih s.end_⟩
      intro b hb2
      exact build_slots_go_head wp cc rest s.end_ b hb2

theorem build_slots_go_pairwise (wp : WeatherProfile) (cc : List String) :
    ∀ (specs : List SlotSpec) (cursor : DT),
      List.Pairwise (fun a b => a.start + 60 * a.duration_min ≤ b.start)
        (build_slots.go wp cc cursor specs) := by
  intro specs
  induction specs with
  | nil => intro cursor; simp [build_slots.go]
  | cons spec rest ih =>
    intro cursor
    simp only [build_slots.go]
    cases hb : buildOneSlot wp cc cursor spec with
    | none => exact ih cursor
    | some s =>
      refine List.Pairwise.cons ?_ (ih s.end_)
      intro b hbmem
      obtain ⟨hstart, hend⟩ := buildOneSlot_shape wp cc cursor spec s hb
      have hb2 := build_slots_go_mem wp cc rest s.end_ b hbmem
      calc s.start + 60 * s.duration_min = s.end_ := by rw [hend, hstart]
        _ ≤ b.start := hb2.1

theorem rank_slots_slots (fetch : List String → List Place) (dist : Place → ℚ)
    (daypart discovery_mode : String) (constraints : List String) (slots : List Slot) :
    (rank_slots fetch dist daypart discovery_mode constraints slots).map (·.slot) = slots := by
  induction slots with
  | nil => rfl
  | cons a l ih => simpa [rank_slots] using ih

theorem materialize_mem_origin : ∀ (i : Nat) (fs : List FilledSlot) (s : Stop),
    s ∈ materialize_stops.go i fs →
    ∃ f ∈ fs, s.start = f.slot.start ∧ s.duration_min = f.slot.duration_min := by
  intro i fs
  induction fs generalizing i with
  | nil => intro s hs; simp [materialize_stops.go] at hs
  | cons f rest ih =>
    intro s hs
    simp only [materialize_stops.go] at hs
    cases hsel : f.selected_place_ids with
    | nil =>
      rw [hsel] at hs
      obtain ⟨g, hg, h1, h2⟩ := ih (i + 1) s hs
      exact ⟨g, List.mem_cons_of_mem f hg, h1, h2⟩
    | cons chosen cs =>
      rw [hsel] at hs
      simp only at hs
      cases hfind : f.options.find? (fun o => o.place.place_id == chosen) with
      | none =>
        rw [hfind] at hs
        obtain ⟨g, hg, h1, h2⟩ := ih (i + 1) s hs
        exact ⟨g, List.mem_cons_of_mem f hg, h1, h2⟩
      | some chosen_opt =>
        rw [hfind] at hs
        rcases List.mem_cons.mp hs with rfl | hmem
        · exact ⟨f, List.mem_cons_self f rest, rfl, rfl⟩
        · obtain ⟨g, hg, h1, h2⟩ := ih (i + 1) s hmem
          exact ⟨g, List.mem_cons_of_mem f hg, h1, h2⟩

theorem materialize_pairwise_start : ∀ (i : Nat) (fs : List FilledSlot),
    fs.Pairwise (fun a b => a.slot.start + 60 * a.slot.duration_min ≤ b.slot.start) →
    (materialize_stops.go i fs).Pairwise
      (fun a b => a.start + 60 * a.duration_min ≤ b.start) := by
  intro i fs
  induction fs generalizing i with
  | nil => intro _; simp [materialize_stops.go]
  | cons f rest ih =>
    intro hpw
    obtain ⟨hhead, htail⟩ := List.pairwise_cons.mp hpw
    simp only [materialize_stops.go]
    cases hsel : f.selected_place_ids with
    | nil => exact ih (i + 1) htail
    | cons chosen cs =>
      simp only
      cases hfind : f.options.find? (fun o => o.place.place_id == chosen) with
      | none => exact ih (i + 1) htail
      | some chosen_opt =>
        refine List.Pairwise.cons ?_ (ih (i + 1) htail)
        intro s hs
        obtain ⟨g, hg, h1, h2⟩ := materialize_mem_origin (i + 1) rest s hs
        have hrel := hhead g hg
        simp only [mkStop]
        rw [h1]
        exact hrel

theorem materialize_order_lb : ∀ (i : Nat) (fs : List FilledSlot) (s : Stop),
    s ∈ materialize_stops.go i fs → i ≤ s.order_index := by
  intro i fs
  induction fs generalizing i with
  | nil => intro s hs; simp [materialize_stops.go] at hs
  | cons f rest ih =>
    intro s hs
    simp only [materialize_stops.go] at hs
    cases hsel : f.selected_place_ids with
    | nil =>
      rw [hsel] at hs
      exact le_trans (Nat.le_succ i) (ih (i + 1) s hs)
    | cons chosen cs =>
      rw [hsel] at hs
      simp only at hs
      cases hfind : f.options.find? (fun o => o.place.place_id == chosen) with
      | none =>
        rw [hfind] at hs
        exact le_trans (Nat.le_succ i) (ih (i + 1) s hs)
      | some chosen_opt =>
        rw [hfind] at hs
        rcases List.mem_cons.mp hs with rfl | hmem
        · exact le_refl _
        · exact le_trans (Nat.le_succ i) (ih (i + 1) s hmem)

theorem materialize_pairwise_order : ∀ (i : Nat) (fs : List FilledSlot),
    (materialize_stops.go i fs).Pairwise
      (fun a b => a.order_index < b.order_index) := by
  intro i fs
  induction fs generalizing i with
  | nil => simp [materialize_stops.go]
  | cons f rest ih =>
    simp only [materialize_stops.go]
    cases hsel : f.selected_place_ids with
    | nil => exact ih (i + 1)
    | cons chosen cs =>
      simp only
      cases hfind : f.options.find? (fun o => o.place.place_id == chosen) with
      | none => exact ih (i + 1)
      | some chosen_opt =>
        refine List.Pairwise.cons ?_ (ih (i + 1))
        intro s hs
        have hlb := materialize_order_lb (i + 1) rest s hs
        simp only [mkStop]
        omega

theorem materialize_length : ∀ (i : Nat) (fs : List FilledSlot),
    (materialize_stops.go i fs).length ≤ fs.length := by
  intro i fs
  induction fs generalizing i with
  | nil => simp [materialize_stops.go]
  | cons f rest ih =>
    simp only [materialize_stops.go]
    cases hsel : f.selected_place_ids with
    | nil => exact le_trans (ih (i + 1)) (Nat.le_succ _)
    | cons chosen cs =>
      simp only
      cases hfind : f.options.find? (fun o => o.place.place_id == chosen) with
      | none => exact le_trans (ih (i + 1)) (Nat.le_succ _)
      | some chosen_opt =>
        simp only [List.length_cons]
        exact Nat.succ_le_succ (ih (i + 1))

theorem headI_mem_of_ne_nil {l : List Stop} (h : l ≠ []) : l.headI ∈ l := by
  cases l with
  | nil => exact absurd rfl h
  | cons a t => exact List.mem_cons_self a t

theorem zigzagRun_ne_nil : zigzagRun ≠ [] := by
  intro h
  have h0 : zigzagRun.length = 0 := by rw [h]; rfl
  have h3 : zigzagRun.length = 3 := by rfl
  rw [h3] at h0
  exact absurd h0 (by decide)

/-- C1: in every engine result, whichever selection path ran, every
materialized stop carries an open status that is not False: closed
candidates are dropped before scoring, selections are validated against
the per-slot options, and the stop copies its open status from its
option. -/
theorem c1_no_stop_confirmed_closed : ∀ (fetch : List String → List Place)
    (dist : Place → ℚ) (dt_local : DT) (slot_specs : List SlotSpec)
    (weather : WeatherDict) (constraints : List String) (discovery_mode : String)
    (picks : Option (String → Option (Option String × String))) (stop : Stop),
    stop ∈ engineChosenStops fetch dist dt_local slot_specs weather constraints
      discovery_mode picks →
    stop.open_status ≠ some false := by
  intro fetch dist dt_local slot_specs weather constraints discovery_mode picks stop hstop
  unfold engineChosenStops at hstop
  have h1 := (order_stops_perm _).subset hstop
  unfold materialize_stops at h1
  obtain ⟨f, hf, opt, hopt, j, rfl⟩ := mem_materialize_go 0 _ _ h1
  unfold engineFilledSlots at hf
  obtain ⟨rs, hrs, hopts, _⟩ := fill_preserves _ _ _ f hf
  have hne := rank_slots_open _ _ _ _ _ _ rs hrs opt (hopts ▸ hopt)
  simpa [mkStop] using hne

/-- C1 witness: the first stop of a concrete three-slot run keeps an open
status different from False. -/
theorem c1_no_stop_confirmed_closed_witness :
    (zigzagRun.headI).open_status ≠ some false :=
  c1_no_stop_confirmed_closed fetchZigzag (fun _ => 0) 43200 coffeeSpecs benignWeather
    [] "local" none zigzagRun.headI (headI_mem_of_ne_nil zigzagRun_ne_nil)

/-- C6 counterexample: a concrete coffee_hop build whose nearest-neighbor
order visits the third slot before the second, so the consecutive pair
(stop 1, stop 2) of the final order violates start + duration at most
next start (4500 + 35 times 60 = 6600 > 2700 in seconds after the
reference epoch). -/
theorem c6_counterexample :
    zigzagRun.map (fun s => (s.place_id, s.start, s.duration_min)) =
      [(some "A", 43500, 40), (some "C", 47700, 35), (some "B", 45900, 30)] ∧
    ¬ ((zigzagRun.getD 1 default).start +
        60 * (zigzagRun.getD 1 default).duration_min ≤
        (zigzagRun.getD 2 default).start) := by
  constructor
  · rfl
  · intro h
    have h1 : (zigzagRun.getD 1 default).start = 47700 := by rfl
    have h2 : (zigzagRun.getD 1 default).duration_min = 35 := by rfl
    have h3 : (zigzagRun.getD 2 default).start = 45900 := by rfl
    rw [h1, h2, h3] at h
    exact absurd h (by decide)

/-- C6 amended: the consecutive-pair inequality holds for the materialized
stops in slot order, before the nearest-neighbor reordering (which
permutes stops without retiming them); the slots themselves are laid out
end-to-end starting 5 minutes after dt_local. -/
theorem c6_stops_sequential_in_slot_order : ∀ (fetch : List String → List Place)
    (dist : Place → ℚ) (dt_local : DT) (slot_specs : List SlotSpec)
    (weather : WeatherDict) (constraints : List String) (discovery_mode : String)
    (picks : Option (String → Option (Option String × String))),
    (materialize_stops (engineFilledSlots fetch dist dt_local slot_specs weather
        constraints discovery_mode picks)).Pairwise
      (fun a b => a.start + 60 * a.duration_min ≤ b.start) ∧
    List.Chain' (fun a b => b.start = a.end_) (build_slots dt_local slot_specs weather) ∧
    ((build_slots dt_local slot_specs weather).all
      fun s => s.end_ == s.start + 60 * s.duration_min) = true ∧
    ((build_slots dt_local slot_specs weather).head?.map (·.start)).getD (dt_local + 300) =
      dt_local + 300 := by
  intro fetch dist dt_local slot_specs weather constraints discovery_mode picks
  refine ⟨?_, build_slots_go_chain _ _ slot_specs _, ?_, ?_⟩
  · have hslots : (build_slots dt_local slot_specs weather).Pairwise
        (fun a b => a.start + 60 * a.duration_min ≤ b.start) :=
      build_slots_go_pairwise _ _ slot_specs _
    have hmap : (engineFilledSlots fetch dist dt_local slot_specs weather
        constraints discovery_mode picks).map (·.slot) =
        build_slots dt_local slot_specs weather := by
      unfold engineFilledSlots
      rw [fill_map_slot, rank_slots_slots]
    rw [← hmap] at hslots
    have hfs := List.pairwise_map.mp hslots
    unfold materialize_stops
    exact materialize_pairwise_start 0 _ hfs
  · rw [List.all_eq_true]
    intro s hs
    have h2 := (build_slots_go_mem _ _ slot_specs _ s hs).2
    exact beq_iff_eq.mpr h2
  · cases hh : (build_slots dt_local slot_specs weather).head? with
    | none => rfl
    | some s =>
      have := build_slots_go_head _ _ slot_specs _ s hh
      simp [this]

/-- C7 counterexample: a concrete build in which the same place tops the
options of all three slots, so its place_id appears three times among the
materialized stops. -/
theorem c7_counterexample :
    sameRun.map (·.place_id) = [some "P", some "P", some "P"] ∧
    ¬ sameRun.Pairwise (fun a b => a.place_id ≠ b.place_id) := by
  constructor
  · rfl
  · intro h
    have hmap : (sameRun.map (·.place_id)).Pairwise (fun a b => a ≠ b) := by
      rw [List.pairwise_map]
      exact h
    have heq : sameRun.map (·.place_id) = [some "P", some "P", some "P"] := by rfl
    rw [heq] at hmap
    obtain ⟨hne, -⟩ := List.pairwise_cons.mp hmap
    exact hne (some "P") (List.mem_cons_self _ _) rfl

/-- C7 amended: each slot yields at most one stop (order indices are
strictly increasing and the stop list is no longer than the slot list),
but nothing deduplicates place ids across slots, so the same place may be
selected by several slots. -/
theorem c7_one_stop_per_slot : ∀ fs : List FilledSlot,
    (materialize_stops fs).Pairwise (fun a b => a.order_index < b.order_index) ∧
    (materialize_stops fs).length ≤ fs.length := by
  intro fs
  exact ⟨materialize_pairwise_order 0 fs, materialize_length 0 fs⟩

/-! ## Open-hours evaluator claims -/

theorem filterMap_mkPeriod (start : DT) (ws : List (Int × String × Int × String)) :
    (ws.map mkPeriod).filterMap (periodInterval start) = ws.map (specWeekInterval start) := by
  induction ws with
  | nil => rfl
  | cons w rest ih =>
    simp only [List.map_cons, List.filterMap_cons]
    rw [show periodInterval start (mkPeriod w) = some (specWeekInterval start w) from rfl]
    rw [ih]

/-- C2: on a place with a non-empty list of fully given periods, the
evaluator maps each period into the local week of start per the
specification (specWeekInterval), answers open_for_slot when some mapped
interval contains the whole window, open_but_closing_during_slot when one
contains the start but ends inside the window, and closed_for_slot
otherwise; and the overnight period open 22:00 closing 02:00 the next
weekday evaluated at 23:00 for 60 minutes is open_for_slot on every
weekday. -/
theorem c2_open_hours_evaluator :
    (∀ (p : Place) (start dur : Nat) (ws : List (Int × String × Int × String)),
      p.opening_hours = some ⟨some (ws.map mkPeriod)⟩ → ws ≠ [] →
      compute_open_status p start dur =
        (if ∃ w ∈ ws, (specWeekInterval start w).1 ≤ start ∧
            start + 60 * dur ≤ (specWeekInterval start w).2 then
          ⟨some true, "high", "open_for_slot"⟩
        else if ∃ w ∈ ws, (specWeekInterval start w).1 ≤ start ∧
            start < (specWeekInterval start w).2 ∧
            start + 60 * dur > (specWeekInterval start w).2 then
          ⟨some true, "medium", "open_but_closing_during_slot"⟩
        else ⟨some false, "high", "closed_for_slot"⟩)) ∧
    (∀ d : Fin 7, compute_open_status (overnightPlace d) (86400 * d.val + 82800) 60 =
      ⟨some true, "high", "open_for_slot"⟩) := by
  constructor
  · intro p start dur ws hp hne
    cases ws with
    | nil => exact absurd rfl hne
    | cons w rest =>
      unfold compute_open_status
      rw [hp]
      simp only [List.map_cons]
      rw [← List.map_cons mkPeriod w rest, filterMap_mkPeriod start (w :: rest)]
      simp only [List.map_cons, List.isEmpty_cons, List.any_cons, List.any_map,
        List.any_eq_true, Function.comp, decide_eq_true_eq, Bool.false_eq_true,
        if_false, List.mem_cons, exists_eq_or_imp, Bool.or_eq_true, List.mem_map,
        exists_exists_and_eq_and]
  · intro d
    fin_cases d <;> rfl

/-- C2 witness: a Monday 09:00 to 17:00 period evaluated Monday 10:00 for
60 minutes is open_for_slot. -/
theorem c2_open_hours_evaluator_witness : compute_open_status mondayPlace 36000 60 =
    ⟨some true, "high", "open_for_slot"⟩ := by
  have h := c2_open_hours_evaluator.1 mondayPlace 36000 60
    [((1 : Int), "0900", (1 : Int), "1700")] rfl (by decide)
  rw [h]
  rfl

/-- C3 counterexample: a place whose business_status is CLOSED_PERMANENTLY
but whose periods cover the slot is reported open_for_slot, not
permanently_closed; the temporarily-closed variant likewise never yields
temporarily_closed. -/
theorem c3_counterexample :
    compute_open_status permClosedPlace 36000 60 = ⟨some true, "high", "open_for_slot"⟩ ∧
    compute_open_status permClosedPlace 36000 60 ≠
      ⟨some false, "high", "permanently_closed"⟩ ∧
    compute_open_status tempClosedPlace 36000 60 ≠
      ⟨some false, "high", "temporarily_closed"⟩ := by
  refine ⟨rfl, by decide, by decide⟩

/-- C3 amended: the V3 evaluator ignores business_status entirely; its
result is invariant under any change of that field.  The
permanently_closed and temporarily_closed results exist only in the
legacy services/engines/time_engine.py evaluator, which engineV3 does not
call. -/
theorem c3_business_status_ignored :
    ∀ (p : Place) (start_dt : DT) (duration_min : Nat) (bs : Option String),
      compute_open_status { p with business_status := bs } start_dt duration_min =
        compute_open_status p start_dt duration_min := by
  intro p start dur bs
  cases p
  rfl

/-! ## Provider wrapper claims -/

theorem safe_cache_incr_raises : ∀ fuel, safe_cache_incr fuel = .error .recursionError := by
  intro fuel
  induction fuel with
  | zero => rfl
  | succ n ih => simp [safe_cache_incr, ih]

/-- C4: get_weather never returns at all on a cache miss: safe_cache_incr
calls itself instead of the cache increment, so every metrics update
recurses until RecursionError, which the except-ValueError block does not
catch and which also escapes the weather except handler, preempting the
seasonal fallback. -/
theorem c4_get_weather_always_raises :
    ∀ (snapshot : Except PyErr WeatherDict) (month fuel : Nat),
      get_weather snapshot month fuel = .error .recursionError := by
  intro snapshot month fuel
  unfold get_weather
  cases snapshot <;> simp [safe_cache_incr_raises]

theorem fetchLoop_ok_or_rec (nearby : String → Except PyErr (List Place)) (fuel : Nat) :
    ∀ (cats : List String) (acc : List Place),
      fetchLoop nearby fuel cats acc = .error .recursionError ∨
      ∃ r, fetchLoop nearby fuel cats acc = .ok r := by
  intro cats
  induction cats with
  | nil => intro acc; exact Or.inr ⟨acc, rfl⟩
  | cons cat rest ih =>
    intro acc
    simp only [fetchLoop]
    cases hn : nearby cat with
    | ok r => exact ih (acc ++ r)
    | error e => rw [safe_cache_incr_raises]; exact Or.inl rfl

/-- C5: fetch_candidates never recovers on a cache miss: a per-category
failure runs safe_cache_incr inside its handler and a fully successful
loop still runs it for the api-calls metric, so RecursionError always
reaches the outer handler, whose own safe_cache_incr raises again instead
of returning the empty list. -/
theorem c5_fetch_candidates_always_raises :
    ∀ (nearby : String → Except PyErr (List Place)) (categories : List String)
      (enrich_opening_hours : Bool) (fuel : Nat),
      fetch_candidates nearby categories enrich_opening_hours fuel =
        .error .recursionError := by
  intro nearby cats enrich fuel
  unfold fetch_candidates
  rcases fetchLoop_ok_or_rec nearby fuel cats [] with h | ⟨r, h⟩ <;>
    simp [h, safe_cache_incr_raises]

/-! ## Template adjustment claims -/

/-- C8 counterexample: for coffee_hop at 2 hours and low energy the
adjust operation keeps all three base slots (the ideal count 4 exceeds
the base slot count 3), scaling the durations to 32, 24 and 28 minutes;
it does not reduce the template to two slots. -/
theorem c8_counterexample :
    (adjust_template_for_duration "coffee_hop" 2 "low").map
      (fun s => (s.slot_id, s.duration_min, s.role)) =
      [("specialty_coffee_1", 32, "anchor"), ("pastry", 24, "nice"),
       ("specialty_coffee_2", 28, "optional")] ∧
    (adjust_template_for_duration "coffee_hop" 2 "low").length ≠ 2 := by
  exact ⟨rfl, by decide⟩

/-- C8 amended: with multiplier 0.8 the ideal count is
int(120 / (35 times 0.8)) = 4, which is not below the 3 base slots, so no
slot is dropped; the adjustment only scales every duration by 0.8 with
int() rounding. -/
theorem c8_adjust_keeps_three_slots :
    pyInt ((2 * 60 : ℚ) / ((105 / 3) * (8 / 10))) = 4 ∧
    adjust_template_for_duration "coffee_hop" 2 "low" =
      ((INTENT_TEMPLATES "coffee_hop").getD []).map
        (fun s => { s with duration_min := (pyInt (s.duration_min * (8 / 10))).toNat }) := by
  exact ⟨rfl, rfl⟩

/-! ## Normalization claims -/

theorem score_indoor_only_noop (place : Place) (hind : place.is_indoor = some true)
    (slot_categories : List String) (daypart discovery_mode : String)
    (cs : List String) (os : OpenStatus) (dist : Option ℚ) :
    score_place_for_slot place slot_categories daypart discovery_mode
      ("indoor_only" :: cs) os dist =
    score_place_for_slot place slot_categories daypart discovery_mode cs os dist := by
  unfold score_place_for_slot
  simp [hind, List.contains_cons]

/-- C10: every place the provider normalization emits has is_indoor True,
so the indoor_only penalty branch of the scorer can never fire on a
normalized candidate: adding the indoor_only constraint leaves its score
unchanged. -/
theorem c10_normalized_places_indoor :
    ∀ (raw : RawPlace) (preferred : List String) (p : Place),
      _normalize_google_place raw preferred = some p →
      p.is_indoor = some true ∧
      ∀ (slot_categories : List String) (daypart discovery_mode : String)
        (cs : List String) (os : OpenStatus) (dist : Option ℚ),
        score_place_for_slot p slot_categories daypart discovery_mode
          ("indoor_only" :: cs) os dist =
        score_place_for_slot p slot_categories daypart discovery_mode cs os dist := by
  intro raw preferred p h
  have hind : p.is_indoor = some true := by
    unfold _normalize_google_place at h
    cases hg : raw.geometry_location with
    | some l =>
      rw [hg] at h
      simp only at h
      split at h
      · cases h
      · cases h; rfl
    | none =>
      rw [hg] at h
      simp only at h
      cases hl : raw.location with
      | none => rw [hl] at h; cases h
      | some l =>
        rw [hl] at h
        simp only at h
        split at h
        · cases h
        · cases h; rfl
  exact ⟨hind, fun cats dp mode cs os dist =>
    score_indoor_only_noop p hind cats dp mode cs os dist⟩

/-- C10 witness: a concrete cafe normalizes with is_indoor True and its
score is unaffected by the indoor_only constraint. -/
theorem c10_normalized_places_indoor_witness :
    _normalize_google_place rawCafe ["cafe"] = some normCafe ∧
    normCafe.is_indoor = some true ∧
    score_place_for_slot normCafe ["cafe"] "midday" "local" ["indoor_only"]
        ⟨none, "low", "hours_missing"⟩ (some 0) =
      score_place_for_slot normCafe ["cafe"] "midday" "local" []
        ⟨none, "low", "hours_missing"⟩ (some 0) := by
  refine ⟨rfl, (c10_normalized_places_indoor rawCafe ["cafe"] normCafe rfl).1, ?_⟩
  exact (c10_normalized_places_indoor rawCafe ["cafe"] normCafe rfl).2 ["cafe"]
    "midday" "local" [] ⟨none, "low", "hours_missing"⟩ (some 0)

end NowaV3
